import Mathlib

set_option maxRecDepth 40000

/-!
Verification of the screenshot walkthrough scripts of the erp-eco-system
repository (src/capture_app_screenshots.py, src/capture_screenshots.py,
src/take_screenshots.py, src/test_dashboard.py).

Each script is a straight-line sequence of browser-automation calls with a
few `if locator.is_visible():` blocks.  We embed the scripts as values of a
small command language `Cmd` and execute them against an environment `Env`
that supplies the two sources of nondeterminism the scripts observe:

* `Env.failAt`: the index (0-based, among fallible browser operations) of
  the first operation that raises an exception, or `none` if no operation
  raises.  A raised exception propagates: every later statement is skipped
  until a `try/except` (only present in capture_app_screenshots.py) or the
  script boundary is reached.
* `Env.vis`: the successive answers of the `is_visible()` / element-count
  probes, consumed in order of evaluation.

The run state records the trace of performed effects (directory creation,
navigation, clicks, screenshots written, prints, ...), whether an exception
is currently propagating, and how many times the browser session has been
closed.  `withPW` models the `with sync_playwright()` / `async with
async_playwright()` scope: on exit it stops the driver, which closes the
browser session if the script did not already close it explicitly.
-/

/-- Observable effects performed by the scripts. -/
inductive Event where
  | mkdir : String → Event
  | goto : String → Event
  | waitLoad : Event
  | sleep : Nat → Event
  | click : String → Event
  | waitSel : String → Event
  | fill : String → String → Event
  | press : String → Event
  | shot : String → Bool → Event
  | probe : String → Event
  | evalJs : String → Event
  | log : String → Event
  | closeBrowser : Event
deriving Repr, DecidableEq

/-- Environment: where the first browser-operation failure occurs (if
anywhere) and the successive answers of the visibility probes. -/
structure Env where
  failAt : Option Nat
  vis : List Bool
deriving Repr, DecidableEq

/-- Dynamic state of one script run. -/
structure RunState where
  fops : Nat
  probes : Nat
  trace : List Event
  raised : Bool
  closeCount : Nat
deriving Repr, DecidableEq

/-- State at script start: nothing executed, no exception, session open. -/
def initState : RunState := ⟨0, 0, [], false, 0⟩

/-- A fallible browser operation: skipped while an exception propagates;
raises if the failure oracle marks this operation; otherwise performs its
effect. -/
def fallible (env : Env) (ev : Event) (s : RunState) : RunState :=
  if s.raised then s
  else if env.failAt = some s.fops then
    { s with fops := s.fops + 1, raised := true }
  else
    { s with fops := s.fops + 1, trace := s.trace ++ [ev] }

/-- An infallible effect (sleep, print, makedirs): skipped while an
exception propagates, otherwise recorded. -/
def emit (ev : Event) (s : RunState) : RunState :=
  if s.raised then s else { s with trace := s.trace ++ [ev] }

/-- Explicit `browser.close()` statement: skipped (like any statement) while
an exception propagates. -/
def closeB (s : RunState) : RunState :=
  if s.raised then s
  else { s with trace := s.trace ++ [Event.closeBrowser], closeCount := s.closeCount + 1 }

/-- The `with sync_playwright()` / `async with async_playwright()` scope:
its exit handler runs on every exit path and stops the driver, closing the
browser session if it is still open. -/
def withPW (body : RunState → RunState) (s : RunState) : RunState :=
  let t := body s
  if t.closeCount = 0 then { t with closeCount := 1 } else t

/-- The `except Exception as e: print(...)` handler of
capture_app_screenshots.py: catches any propagating exception and prints the
error. -/
def handleExc (s : RunState) : RunState :=
  if s.raised then { s with raised := false, trace := s.trace ++ [Event.log "Error"] }
  else s

/-- Process exit code: non-zero iff an exception escapes to the top level. -/
def exitCode (s : RunState) : Nat := if s.raised then 1 else 0

/-- Script fragments: a fallible action, a fixed sleep, a print, a full-page
screenshot, an `if locator.is_visible():` conditional, and sequencing. -/
inductive Cmd where
  | act : Event → Cmd
  | pause : Nat → Cmd
  | note : String → Cmd
  | snap : String → Bool → Cmd
  | branch : String → Cmd → Cmd → Cmd
  | seq : Cmd → Cmd → Cmd
  | skip : Cmd
deriving Repr, DecidableEq

/-- Execute one command against the environment. -/
def execCmd (env : Env) : Cmd → RunState → RunState
  | Cmd.act ev, s => fallible env ev s
  | Cmd.pause ms, s => emit (Event.sleep ms) s
  | Cmd.note m, s => emit (Event.log m) s
  | Cmd.snap p fp, s => fallible env (Event.shot p fp) s
  | Cmd.branch sel t e, s =>
      if s.raised then s
      else if env.vis.getD s.probes false then
        execCmd env t { s with probes := s.probes + 1, trace := s.trace ++ [Event.probe sel] }
      else
        execCmd env e { s with probes := s.probes + 1, trace := s.trace ++ [Event.probe sel] }
  | Cmd.seq a b, s => execCmd env b (execCmd env a s)
  | Cmd.skip, s => s

/-- Sequence a statement list into one command. -/
def seqList (l : List Cmd) : Cmd := l.foldr Cmd.seq Cmd.skip

/-- All effects a command could ever record (both branches of every
conditional). -/
def cmdEvents : Cmd → List Event
  | Cmd.act ev => [ev]
  | Cmd.pause ms => [Event.sleep ms]
  | Cmd.note m => [Event.log m]
  | Cmd.snap p fp => [Event.shot p fp]
  | Cmd.branch sel t e => Event.probe sel :: (cmdEvents t ++ cmdEvents e)
  | Cmd.seq a b => cmdEvents a ++ cmdEvents b
  | Cmd.skip => []

/-! ## The four scripts, transcribed from src/ -/

/-- Lines 34-64 of src/capture_screenshots.py: the `if first_email.is_visible():`
block (click the first email row, wait for the detail modal, screenshot 03,
then unconditionally open the quotation options and modal, screenshots 04
and 05, and close the modals with Escape). -/
def cs_email_detail : List Cmd := [
  Cmd.act (Event.click "tbody tr"),
  Cmd.act (Event.waitSel "#emailModal"),
  Cmd.pause 1000,
  Cmd.snap "screenshots/03_email_detail.png" true,
  Cmd.note "Captured: Email detail modal",
  Cmd.act (Event.click "[data-testid=\"email-quotation-btn\"]"),
  Cmd.pause 1000,
  Cmd.snap "screenshots/04_quotation_options.png" true,
  Cmd.note "Captured: Quotation options",
  Cmd.act (Event.click "[data-testid=\"quotation-hang-tag-btn\"]"),
  Cmd.act (Event.waitSel "#emailQuotationModal"),
  Cmd.pause 1000,
  Cmd.snap "screenshots/05_quotation_from_email.png" true,
  Cmd.note "Captured: Quotation modal from email",
  Cmd.act (Event.press "Escape"),
  Cmd.pause 500,
  Cmd.act (Event.press "Escape"),
  Cmd.pause 1000 ]

/-- Lines 102-116 of src/capture_screenshots.py: the
`if first_quotation.is_visible():` block with the nested
`if edit_btn.is_visible():` block (screenshots 11 and 12). -/
def cs_quotation_detail : List Cmd := [
  Cmd.act (Event.click "tbody tr"),
  Cmd.pause 1000,
  Cmd.snap "screenshots/11_quotation_detail.png" true,
  Cmd.note "Captured: Quotation detail view",
  Cmd.branch "button:has-text(\"Edit Quotation\")"
    (seqList [
      Cmd.act (Event.click "button:has-text(\"Edit Quotation\")"),
      Cmd.pause 1000,
      Cmd.snap "screenshots/12_quotation_edit_mode.png" true,
      Cmd.note "Captured: Quotation edit mode" ])
    Cmd.skip ]

/-- Lines 10-26 of src/capture_screenshots.py: navigation to the app and
screenshots 01 and 02, up to the first visibility check. -/
def cs_intro : List Cmd := [
  Cmd.act (Event.goto "http://localhost:3001"),
  Cmd.act Event.waitLoad,
  Cmd.pause 2000,
  Cmd.snap "screenshots/01_home.png" true,
  Cmd.note "Captured: Home page",
  Cmd.act (Event.click "[data-testid=\"menu-email\"]"),
  Cmd.pause 1000,
  Cmd.act (Event.click "[data-testid=\"email-receive-btn\"]"),
  Cmd.act Event.waitLoad,
  Cmd.pause 2000,
  Cmd.snap "screenshots/02_email_receive.png" true,
  Cmd.note "Captured: Email Receive panel" ]

/-- Lines 56-119 of src/capture_screenshots.py: everything after the first
visibility block (Email Send, Quotation Create, form fill, Clear, Quotation
View, the second visibility block, and the final prints). -/
def cs_after : List Cmd := [
  Cmd.act (Event.click "[data-testid=\"menu-email\"]"),
  Cmd.pause 1000,
  Cmd.act (Event.click "[data-testid=\"email-send-btn\"]"),
  Cmd.act Event.waitLoad,
  Cmd.pause 2000,
  Cmd.snap "screenshots/06_email_send.png" true,
  Cmd.note "Captured: Email Send panel",
  Cmd.act (Event.click "[data-testid=\"menu-quotation\"]"),
  Cmd.pause 1000,
  Cmd.act (Event.click "[data-testid=\"quotation-create-btn\"]"),
  Cmd.pause 1000,
  Cmd.snap "screenshots/07_quotation_create_menu.png" true,
  Cmd.note "Captured: Quotation Create menu",
  Cmd.act (Event.click "[data-testid=\"hang-tag-btn\"]"),
  Cmd.pause 1000,
  Cmd.snap "screenshots/08_quotation_create_form.png" true,
  Cmd.note "Captured: Quotation Create form",
  Cmd.act (Event.fill "#quotationCustomerName" "Sample Customer"),
  Cmd.act (Event.fill "#quotationEmail" "sample@example.com"),
  Cmd.act (Event.fill "#quotationPhone" "+852 1234 5678"),
  Cmd.act (Event.fill "#quotationQuantity" "1000"),
  Cmd.act (Event.fill "#quotationUnitPrice" "0.50"),
  Cmd.pause 1000,
  Cmd.snap "screenshots/09_quotation_create_filled.png" true,
  Cmd.note "Captured: Quotation Create form (filled)",
  Cmd.act (Event.click "button:has-text(\"Clear\")"),
  Cmd.pause 1000,
  Cmd.act (Event.click "[data-testid=\"menu-quotation\"]"),
  Cmd.pause 1000,
  Cmd.act (Event.click "[data-testid=\"quotation-view-btn\"]"),
  Cmd.act Event.waitLoad,
  Cmd.pause 2000,
  Cmd.snap "screenshots/10_quotation_view.png" true,
  Cmd.note "Captured: Quotation View panel",
  Cmd.branch "tbody tr" (seqList cs_quotation_detail) Cmd.skip,
  Cmd.note "All screenshots captured successfully!",
  Cmd.note "Screenshots saved to: screenshots" ]

/-- The statement list of `capture_screenshots()` in
src/capture_screenshots.py (lines 10-119). -/
def capture_screenshots_steps : List Cmd :=
  cs_intro ++ [Cmd.branch "tbody tr" (seqList cs_email_detail) Cmd.skip] ++ cs_after

/-- The body of `capture_screenshots()` in src/capture_screenshots.py: run
the statements, then `browser.close()` (line 121, last statement, executed
only if no exception propagates), all inside the `with sync_playwright()`
scope. -/
def capture_screenshots (env : Env) (s : RunState) : RunState :=
  withPW (fun t => closeB (execCmd env (seqList capture_screenshots_steps) t)) s

/-- src/capture_screenshots.py run as a script: the `__main__` block calls
`os.makedirs('screenshots', exist_ok=True)` and then `capture_screenshots()`. -/
def capture_screenshots_main (env : Env) : RunState :=
  capture_screenshots env (emit (Event.mkdir "screenshots") initState)

/-- Lines 43-58 of src/capture_app_screenshots.py: the nested
`if hang_tag_btn.is_visible():` block inside the quotation-options block. -/
def app_hang_tag : List Cmd := [
  Cmd.act (Event.click "[data-testid=\"quotation-hang-tag-btn\"]"),
  Cmd.act (Event.waitSel "#emailQuotationModal"),
  Cmd.pause 1000,
  Cmd.snap "screenshots/05_quotation_from_email.png" true,
  Cmd.note "Captured: Quotation modal from email" ]

/-- Lines 44-58 of src/capture_app_screenshots.py: the
`if quotation_btn.is_visible():` block (screenshot 04 and the nested
hang-tag block). -/
def app_quotation_options : List Cmd := [
  Cmd.act (Event.click "[data-testid=\"email-quotation-btn\"]"),
  Cmd.pause 1000,
  Cmd.snap "screenshots/04_quotation_options.png" true,
  Cmd.note "Captured: Quotation options",
  Cmd.branch "[data-testid=\"quotation-hang-tag-btn\"]" (seqList app_hang_tag) Cmd.skip ]

/-- Lines 34-64 of src/capture_app_screenshots.py: the
`if first_email.is_visible():` block (screenshot 03, the nested
quotation-options block, and the Escape presses). -/
def app_email_detail : List Cmd := [
  Cmd.act (Event.click "tbody tr"),
  Cmd.act (Event.waitSel "#emailModal"),
  Cmd.pause 1000,
  Cmd.snap "screenshots/03_email_detail.png" true,
  Cmd.note "Captured: Email detail modal",
  Cmd.branch "[data-testid=\"email-quotation-btn\"]" (seqList app_quotation_options) Cmd.skip,
  Cmd.act (Event.press "Escape"),
  Cmd.pause 500,
  Cmd.act (Event.press "Escape"),
  Cmd.pause 1000 ]

/-- Lines 114-128 of src/capture_app_screenshots.py: the
`if first_quotation.is_visible():` block with the nested edit block. -/
def app_quotation_detail : List Cmd := [
  Cmd.act (Event.click "tbody tr"),
  Cmd.pause 1000,
  Cmd.snap "screenshots/11_quotation_detail.png" true,
  Cmd.note "Captured: Quotation detail view",
  Cmd.branch "button:has-text(\"Edit Quotation\")"
    (seqList [
      Cmd.act (Event.click "button:has-text(\"Edit Quotation\")"),
      Cmd.pause 1000,
      Cmd.snap "screenshots/12_quotation_edit_mode.png" true,
      Cmd.note "Captured: Quotation edit mode" ])
    Cmd.skip ]

/-- The statement list inside the `try:` of `capture_screenshots()` in
src/capture_app_screenshots.py (lines 14-131). -/
def capture_app_steps : List Cmd := [
  Cmd.act (Event.goto "http://localhost:3001"),
  Cmd.act Event.waitLoad,
  Cmd.pause 2000,
  Cmd.snap "screenshots/01_home.png" true,
  Cmd.note "Captured: Home page",
  Cmd.act (Event.click "[data-testid=\"menu-email\"]"),
  Cmd.pause 1000,
  Cmd.act (Event.click "[data-testid=\"email-receive-btn\"]"),
  Cmd.act Event.waitLoad,
  Cmd.pause 2000,
  Cmd.snap "screenshots/02_email_receive.png" true,
  Cmd.note "Captured: Email Receive panel",
  Cmd.branch "tbody tr" (seqList app_email_detail) Cmd.skip,
  Cmd.act (Event.click "[data-testid=\"menu-email\"]"),
  Cmd.pause 1000,
  Cmd.act (Event.click "[data-testid=\"email-send-btn\"]"),
  Cmd.act Event.waitLoad,
  Cmd.pause 2000,
  Cmd.snap "screenshots/06_email_send.png" true,
  Cmd.note "Captured: Email Send panel",
  Cmd.act (Event.click "[data-testid=\"menu-quotation\"]"),
  Cmd.pause 1000,
  Cmd.act (Event.click "[data-testid=\"quotation-create-btn\"]"),
  Cmd.pause 1000,
  Cmd.snap "screenshots/07_quotation_create_menu.png" true,
  Cmd.note "Captured: Quotation Create menu",
  Cmd.act (Event.click "[data-testid=\"hang-tag-btn\"]"),
  Cmd.pause 1000,
  Cmd.snap "screenshots/08_quotation_create_form.png" true,
  Cmd.note "Captured: Quotation Create form",
  Cmd.act (Event.fill "#quotationCustomerName" "Sample Customer"),
  Cmd.act (Event.fill "#quotationEmail" "sample@example.com"),
  Cmd.act (Event.fill "#quotationPhone" "+852 1234 5678"),
  Cmd.act (Event.fill "#quotationQuantity" "1000"),
  Cmd.act (Event.fill "#quotationUnitPrice" "0.50"),
  Cmd.pause 1000,
  Cmd.snap "screenshots/09_quotation_create_filled.png" true,
  Cmd.note "Captured: Quotation Create form (filled)",
  Cmd.branch "button:has-text(\"Clear\")"
    (seqList [Cmd.act (Event.click "button:has-text(\"Clear\")"), Cmd.pause 1000])
    Cmd.skip,
  Cmd.act (Event.click "[data-testid=\"menu-quotation\"]"),
  Cmd.pause 1000,
  Cmd.act (Event.click "[data-testid=\"quotation-view-btn\"]"),
  Cmd.act Event.waitLoad,
  Cmd.pause 2000,
  Cmd.snap "screenshots/10_quotation_view.png" true,
  Cmd.note "Captured: Quotation View panel",
  Cmd.branch "tbody tr" (seqList app_quotation_detail) Cmd.skip,
  Cmd.note "All screenshots captured successfully!",
  Cmd.note "Screenshots saved to: screenshots" ]

/-- `capture_screenshots()` in src/capture_app_screenshots.py: makedirs,
then (inside the playwright scope) a `try:` around the whole walkthrough, an
`except Exception` that catches everything and prints the error, and a
`finally: await browser.close()`.  Since the except clause has already
cleared any propagating exception when the finally clause runs, the close in
the finally clause always executes. -/
def capture_app_screenshots (env : Env) : RunState :=
  withPW
    (fun s => closeB (handleExc (execCmd env (seqList capture_app_steps) s)))
    (emit (Event.mkdir "screenshots") initState)

/-- The statement list of src/take_screenshots.py (lines 12-60), inside the
`with sync_playwright()` scope. -/
def take_screenshots_steps : List Cmd := [
  Cmd.note "Starting screenshot capture...",
  Cmd.act (Event.goto "http://localhost:3001"),
  Cmd.act Event.waitLoad,
  Cmd.pause 2000,
  Cmd.snap "screenshots/01_home.png" true,
  Cmd.note "Home page",
  Cmd.act (Event.click "[data-testid=\"menu-email\"]"),
  Cmd.pause 1000,
  Cmd.act (Event.click "[data-testid=\"email-receive-btn\"]"),
  Cmd.act Event.waitLoad,
  Cmd.pause 2000,
  Cmd.snap "screenshots/02_email_receive.png" true,
  Cmd.note "Email Receive panel",
  Cmd.act (Event.click "[data-testid=\"menu-email\"]"),
  Cmd.pause 1000,
  Cmd.act (Event.click "[data-testid=\"email-send-btn\"]"),
  Cmd.act Event.waitLoad,
  Cmd.pause 2000,
  Cmd.snap "screenshots/03_email_send.png" true,
  Cmd.note "Email Send panel",
  Cmd.act (Event.click "[data-testid=\"menu-quotation\"]"),
  Cmd.pause 1000,
  Cmd.act (Event.click "[data-testid=\"quotation-create-btn\"]"),
  Cmd.pause 1000,
  Cmd.snap "screenshots/04_quotation_create_menu.png" true,
  Cmd.note "Quotation Create menu",
  Cmd.act (Event.click "[data-testid=\"hang-tag-btn\"]"),
  Cmd.pause 1000,
  Cmd.snap "screenshots/05_quotation_form.png" true,
  Cmd.note "Quotation form",
  Cmd.act (Event.click "[data-testid=\"menu-quotation\"]"),
  Cmd.pause 1000,
  Cmd.act (Event.click "[data-testid=\"quotation-view-btn\"]"),
  Cmd.act Event.waitLoad,
  Cmd.pause 2000,
  Cmd.snap "screenshots/06_quotation_view.png" true,
  Cmd.note "Quotation View panel" ]

/-- src/take_screenshots.py: module-level makedirs (line 5), then the
walkthrough inside the playwright scope, then `browser.close()` and a final
print (lines 62-63). -/
def take_screenshots_run (env : Env) : RunState :=
  withPW
    (fun s =>
      emit (Event.log "All screenshots saved")
        (closeB (execCmd env (seqList take_screenshots_steps) s)))
    (emit (Event.mkdir "screenshots") initState)

/-- Lines 33-51 of src/test_dashboard.py: the
`if bar_button.is_visible():` block, with the `else:` warning print. -/
def td_bar_chart : List Cmd := [
  Cmd.act (Event.click "#viewModeBar"),
  Cmd.pause 1000,
  Cmd.note "Switched to bar chart view",
  Cmd.snap "d:/project/erp_nlr/screenshots/03_bar_chart_view.png" true,
  Cmd.note "Bar chart view screenshot saved",
  Cmd.act (Event.click "#viewModePie"),
  Cmd.pause 1000,
  Cmd.note "Switched back to pie chart view",
  Cmd.snap "d:/project/erp_nlr/screenshots/04_pie_chart_final.png" true,
  Cmd.note "Final pie chart screenshot saved" ]

/-- The statement list of src/test_dashboard.py (lines 8-77): note that no
`os.makedirs` appears anywhere in this script. -/
def test_dashboard_steps : List Cmd := [
  Cmd.act (Event.goto "http://localhost:3001"),
  Cmd.act Event.waitLoad,
  Cmd.note "Application loaded successfully",
  Cmd.snap "d:/project/erp_nlr/screenshots/01_initial_load.png" true,
  Cmd.note "Initial screenshot saved",
  Cmd.pause 2000,
  Cmd.act (Event.evalJs "typeof Chart"),
  Cmd.note "Chart.js loaded",
  Cmd.snap "d:/project/erp_nlr/screenshots/02_pie_chart_view.png" true,
  Cmd.note "Pie chart view screenshot saved",
  Cmd.branch "#viewModeBar" (seqList td_bar_chart)
    (Cmd.note "Bar chart button not found - dashboard may not be visible"),
  Cmd.branch "#chartCanvas"
    (seqList [
      Cmd.note "Canvas element exists: true",
      Cmd.act (Event.evalJs "chart dimensions"),
      Cmd.note "Chart dimensions" ])
    (Cmd.note "Canvas element exists: false"),
  Cmd.note "Dashboard testing complete!",
  Cmd.note "Screenshots saved",
  Cmd.pause 2000 ]

/-- src/test_dashboard.py: the walkthrough inside the playwright scope,
ending with `browser.close()` (line 78, last statement). -/
def test_dashboard_run (env : Env) : RunState :=
  withPW (fun s => closeB (execCmd env (seqList test_dashboard_steps) s)) initState

/-! ## Trace observations -/

/-- Whether an event is a written screenshot file. -/
def isShot : Event → Bool
  | Event.shot _ _ => true
  | _ => false

/-- Whether an event is a settle sleep. -/
def isSleep : Event → Bool
  | Event.sleep _ => true
  | _ => false

/-- Whether an event is a console print. -/
def isLog : Event → Bool
  | Event.log _ => true
  | _ => false

/-- Whether an event is a directory creation. -/
def isMkdir : Event → Bool
  | Event.mkdir _ => true
  | _ => false

/-- The screenshot events of a run, in order. -/
def shotsOf (s : RunState) : List Event := s.trace.filter isShot

/-- The path a screenshot event writes to. -/
def shotPath : Event → String
  | Event.shot p _ => p
  | _ => ""

/-- The full-page flag of a screenshot event. -/
def shotFull : Event → Bool
  | Event.shot _ fp => fp
  | _ => false

/-- The screenshot file names produced by a run, in order. -/
def shotPathsOf (s : RunState) : List String := (shotsOf s).map shotPath

/-- The screenshot events a statement list can ever produce, in declaration
order (all conditional branches included). -/
def staticShots (l : List Cmd) : List Event := (cmdEvents (seqList l)).filter isShot

/-- The message of a print event. -/
def logMsg : Event → Option String
  | Event.log m => some m
  | _ => none

/-- The characters of a path after its last slash (the file name). -/
def baseChars (p : String) : List Char :=
  ((p.data.reverse.takeWhile (fun c => c ≠ '/'))).reverse

/-- The numeric value of a digit character. -/
def digitVal (c : Char) : Nat := c.toNat - 48

/-- The two-digit ordinal at the front of a screenshot file name. -/
def shotOrd (e : Event) : Nat :=
  match baseChars (shotPath e) with
  | a :: b :: _ => 10 * digitVal a + digitVal b
  | _ => 0

/-- Ordering of screenshot events by their file-name ordinal. -/
def shotLt (a b : Event) : Prop := shotOrd a < shotOrd b

instance (a b : Event) : Decidable (shotLt a b) := by
  unfold shotLt
  infer_instance

/-- The file name starts with exactly two digits and an underscore. -/
def ordPrefixOk (e : Event) : Bool :=
  match baseChars (shotPath e) with
  | a :: b :: u :: _ => a.isDigit && b.isDigit && decide (u = '_')
  | _ => false

/-- The path lies in the given directory and is a .png file. -/
def inDirPng (dir : String) (e : Event) : Bool :=
  List.isPrefixOf (dir ++ "/").data (shotPath e).data
    && List.isSuffixOf ".png".data (shotPath e).data

/-! ## Basic executor lemmas -/

theorem seqList_nil : seqList [] = Cmd.skip := rfl

theorem seqList_cons (c : Cmd) (l : List Cmd) :
    seqList (c :: l) = Cmd.seq c (seqList l) := rfl

theorem execCmd_seq (env : Env) (a b : Cmd) (s : RunState) :
    execCmd env (Cmd.seq a b) s = execCmd env b (execCmd env a s) := rfl

theorem execCmd_skip (env : Env) (s : RunState) : execCmd env Cmd.skip s = s := rfl

theorem execCmd_branch_true (env : Env) (sel : String) (t e : Cmd) (s : RunState)
    (h : s.raised = false) (hv : env.vis.getD s.probes false = true) :
    execCmd env (Cmd.branch sel t e) s
      = execCmd env t { s with probes := s.probes + 1, trace := s.trace ++ [Event.probe sel] } := by
  show (if s.raised then s
    else if env.vis.getD s.probes false then
      execCmd env t { s with probes := s.probes + 1, trace := s.trace ++ [Event.probe sel] }
    else
      execCmd env e { s with probes := s.probes + 1, trace := s.trace ++ [Event.probe sel] }) = _
  rw [if_neg (by simp [h]), if_pos hv]

theorem execCmd_branch_false (env : Env) (sel : String) (t e : Cmd) (s : RunState)
    (h : s.raised = false) (hv : env.vis.getD s.probes false = false) :
    execCmd env (Cmd.branch sel t e) s
      = execCmd env e { s with probes := s.probes + 1, trace := s.trace ++ [Event.probe sel] } := by
  show (if s.raised then s
    else if env.vis.getD s.probes false then
      execCmd env t { s with probes := s.probes + 1, trace := s.trace ++ [Event.probe sel] }
    else
      execCmd env e { s with probes := s.probes + 1, trace := s.trace ++ [Event.probe sel] }) = _
  rw [if_neg (by simp [h]), if_neg (by simpa using hv)]

/-- A propagating exception absorbs every later command. -/
theorem execCmd_of_raised (env : Env) (c : Cmd) :
    ∀ s : RunState, s.raised = true → execCmd env c s = s := by
  induction c with
  | act ev => intro s h; simp [execCmd, fallible, h]
  | pause ms => intro s h; simp [execCmd, emit, h]
  | note m => intro s h; simp [execCmd, emit, h]
  | snap p fp => intro s h; simp [execCmd, fallible, h]
  | branch sel t e iht ihe => intro s h; simp [execCmd, h]
  | seq a b iha ihb =>
      intro s h
      rw [execCmd_seq, iha s h, ihb s h]
  | skip => intro s _; rfl

/-- Without an injected failure the exception flag never changes. -/
theorem execCmd_noFail (env : Env) (hf : env.failAt = none) (c : Cmd) :
    ∀ s : RunState, (execCmd env c s).raised = s.raised := by
  induction c with
  | act ev =>
      intro s
      by_cases h : s.raised = true
      · rw [execCmd_of_raised env _ s h]
      · simp [execCmd, fallible, hf, h]
  | pause ms => intro s; by_cases h : s.raised = true <;> simp [execCmd, emit, h]
  | note m => intro s; by_cases h : s.raised = true <;> simp [execCmd, emit, h]
  | snap p fp =>
      intro s
      by_cases h : s.raised = true
      · rw [execCmd_of_raised env _ s h]
      · simp [execCmd, fallible, hf, h]
  | branch sel t e iht ihe =>
      intro s
      by_cases h : s.raised = true
      · rw [execCmd_of_raised env _ s h]
      · have h' : s.raised = false := by simpa using h
        by_cases hv : env.vis.getD s.probes false = true
        · rw [execCmd_branch_true env sel t e s h' hv, iht]
        · have hv' : env.vis.getD s.probes false = false := by simpa using hv
          rw [execCmd_branch_false env sel t e s h' hv', ihe]
  | seq a b iha ihb => intro s; rw [execCmd_seq, ihb, iha]
  | skip => intro s; rfl

/-- Execution only changes the close count through explicit close
statements, which no command contains. -/
theorem execCmd_closeCount (env : Env) (c : Cmd) :
    ∀ s : RunState, (execCmd env c s).closeCount = s.closeCount := by
  induction c with
  | act ev =>
      intro s
      by_cases h : s.raised = true
      · rw [execCmd_of_raised env _ s h]
      · by_cases h2 : env.failAt = some s.fops <;> simp [execCmd, fallible, h, h2]
  | pause ms => intro s; by_cases h : s.raised = true <;> simp [execCmd, emit, h]
  | note m => intro s; by_cases h : s.raised = true <;> simp [execCmd, emit, h]
  | snap p fp =>
      intro s
      by_cases h : s.raised = true
      · rw [execCmd_of_raised env _ s h]
      · by_cases h2 : env.failAt = some s.fops <;> simp [execCmd, fallible, h, h2]
  | branch sel t e iht ihe =>
      intro s
      by_cases h : s.raised = true
      · rw [execCmd_of_raised env _ s h]
      · have h' : s.raised = false := by simpa using h
        by_cases hv : env.vis.getD s.probes false = true
        · rw [execCmd_branch_true env sel t e s h' hv, iht]
        · have hv' : env.vis.getD s.probes false = false := by simpa using hv
          rw [execCmd_branch_false env sel t e s h' hv', ihe]
  | seq a b iha ihb => intro s; rw [execCmd_seq, ihb, iha]
  | skip => intro s; rfl

/-- Branch-free commands never consume a visibility probe. -/
def branchFree : Cmd → Bool
  | Cmd.branch _ _ _ => false
  | Cmd.seq a b => branchFree a && branchFree b
  | _ => true

theorem execCmd_probes_of_branchFree (env : Env) (c : Cmd) :
    branchFree c = true → ∀ s : RunState, (execCmd env c s).probes = s.probes := by
  induction c with
  | act ev =>
      intro _ s
      by_cases h : s.raised = true
      · rw [execCmd_of_raised env _ s h]
      · by_cases h2 : env.failAt = some s.fops <;> simp [execCmd, fallible, h, h2]
  | pause ms => intro _ s; by_cases h : s.raised = true <;> simp [execCmd, emit, h]
  | note m => intro _ s; by_cases h : s.raised = true <;> simp [execCmd, emit, h]
  | snap p fp =>
      intro _ s
      by_cases h : s.raised = true
      · rw [execCmd_of_raised env _ s h]
      · by_cases h2 : env.failAt = some s.fops <;> simp [execCmd, fallible, h, h2]
  | branch sel t e iht ihe => intro h; exact absurd h (by simp [branchFree])
  | seq a b iha ihb =>
      intro h s
      have ha : branchFree a = true := by
        have h' := h; simp [branchFree] at h'; exact h'.1
      have hb : branchFree b = true := by
        have h' := h; simp [branchFree] at h'; exact h'.2
      rw [execCmd_seq, ihb hb, iha ha]
  | skip => intro _ s; rfl

/-- Master trace decomposition: executing a command appends a suffix `d` to
the trace, whose screenshot events form a sublist of the command's declared
screenshot events, and whose events all come from the command's declared
events. -/
theorem execCmd_trace (env : Env) (c : Cmd) :
    ∀ s : RunState, ∃ d,
      (execCmd env c s).trace = s.trace ++ d
      ∧ (d.filter isShot).Sublist ((cmdEvents c).filter isShot)
      ∧ ∀ e ∈ d, e ∈ cmdEvents c := by
  induction c with
  | act ev =>
      intro s
      by_cases h : s.raised = true
      · exact ⟨[], by rw [execCmd_of_raised env _ s h]; simp, by simp, by simp⟩
      · by_cases h2 : env.failAt = some s.fops
        · exact ⟨[], by simp [execCmd, fallible, h, h2], by simp, by simp⟩
        · refine ⟨[ev], by simp [execCmd, fallible, h, h2], ?_, by simp [cmdEvents]⟩
          exact List.Sublist.refl _
  | pause ms =>
      intro s
      by_cases h : s.raised = true
      · exact ⟨[], by rw [execCmd_of_raised env _ s h]; simp, by simp, by simp⟩
      · refine ⟨[Event.sleep ms], by simp [execCmd, emit, h], ?_, by simp [cmdEvents]⟩
        exact List.Sublist.refl _
  | note m =>
      intro s
      by_cases h : s.raised = true
      · exact ⟨[], by rw [execCmd_of_raised env _ s h]; simp, by simp, by simp⟩
      · refine ⟨[Event.log m], by simp [execCmd, emit, h], ?_, by simp [cmdEvents]⟩
        exact List.Sublist.refl _
  | snap p fp =>
      intro s
      by_cases h : s.raised = true
      · exact ⟨[], by rw [execCmd_of_raised env _ s h]; simp, by simp, by simp⟩
      · by_cases h2 : env.failAt = some s.fops
        · exact ⟨[], by simp [execCmd, fallible, h, h2], by simp, by simp⟩
        · refine ⟨[Event.shot p fp], by simp [execCmd, fallible, h, h2], ?_, by simp [cmdEvents]⟩
          exact List.Sublist.refl _
  | branch sel t e iht ihe =>
      intro s
      by_cases h : s.raised = true
      · exact ⟨[], by rw [execCmd_of_raised env _ s h]; simp, by simp, by simp⟩
      · have h' : s.raised = false := by simpa using h
        by_cases hv : env.vis.getD s.probes false = true
        · obtain ⟨d, hd, hsub, hmem⟩ :=
            iht { s with probes := s.probes + 1, trace := s.trace ++ [Event.probe sel] }
          refine ⟨Event.probe sel :: d, ?_, ?_, ?_⟩
          · rw [execCmd_branch_true env sel t e s h' hv, hd]
            simp
          · have h1 : (Event.probe sel :: d).filter isShot = d.filter isShot := by
              simp [List.filter, isShot]
            have h2 : (cmdEvents (Cmd.branch sel t e)).filter isShot
                = (cmdEvents t).filter isShot ++ (cmdEvents e).filter isShot := by
              simp [cmdEvents, List.filter_append, List.filter, isShot]
            rw [h1, h2]
            exact hsub.trans (List.sublist_append_left _ _)
          · intro x hx
            rcases List.mem_cons.mp hx with hx | hx
            · subst hx; simp [cmdEvents]
            · have hx' := hmem x hx
              simp only [cmdEvents, List.mem_cons, List.mem_append]
              right; left; exact hx'
        · have hv' : env.vis.getD s.probes false = false := by simpa using hv
          obtain ⟨d, hd, hsub, hmem⟩ :=
            ihe { s with probes := s.probes + 1, trace := s.trace ++ [Event.probe sel] }
          refine ⟨Event.probe sel :: d, ?_, ?_, ?_⟩
          · rw [execCmd_branch_false env sel t e s h' hv', hd]
            simp
          · have h1 : (Event.probe sel :: d).filter isShot = d.filter isShot := by
              simp [List.filter, isShot]
            have h2 : (cmdEvents (Cmd.branch sel t e)).filter isShot
                = (cmdEvents t).filter isShot ++ (cmdEvents e).filter isShot := by
              simp [cmdEvents, List.filter_append, List.filter, isShot]
            rw [h1, h2]
            exact hsub.trans (List.sublist_append_right _ _)
          · intro x hx
            rcases List.mem_cons.mp hx with hx | hx
            · subst hx; simp [cmdEvents]
            · have hx' := hmem x hx
              simp only [cmdEvents, List.mem_cons, List.mem_append]
              right; right; exact hx'
  | seq a b iha ihb =>
      intro s
      obtain ⟨d1, hd1, hsub1, hmem1⟩ := iha s
      obtain ⟨d2, hd2, hsub2, hmem2⟩ := ihb (execCmd env a s)
      refine ⟨d1 ++ d2, ?_, ?_, ?_⟩
      · rw [execCmd_seq, hd2, hd1, List.append_assoc]
      · rw [List.filter_append]
        have h2 : (cmdEvents (Cmd.seq a b)).filter isShot
            = (cmdEvents a).filter isShot ++ (cmdEvents b).filter isShot := by
          simp [cmdEvents, List.filter_append]
        rw [h2]
        exact List.Sublist.append hsub1 hsub2
      · intro x hx
        rcases List.mem_append.mp hx with hx | hx
        · exact List.mem_append_left _ (hmem1 x hx)
        · exact List.mem_append_right _ (hmem2 x hx)
  | skip => intro s; exact ⟨[], by simp [execCmd_skip], by simp, by simp⟩

/-- Trace extension: execution only appends to the trace. -/
theorem execCmd_trace_ext (env : Env) (c : Cmd) (s : RunState) :
    ∃ d, (execCmd env c s).trace = s.trace ++ d := by
  obtain ⟨d, hd, _, _⟩ := execCmd_trace env c s
  exact ⟨d, hd⟩

/-- Splitting a statement list. -/
theorem execCmd_seqList_append (env : Env) (p q : List Cmd) :
    ∀ s : RunState,
      execCmd env (seqList (p ++ q)) s = execCmd env (seqList q) (execCmd env (seqList p) s) := by
  induction p with
  | nil => intro s; rfl
  | cons c cs ih =>
      intro s
      rw [List.cons_append, seqList_cons, execCmd_seq, seqList_cons, execCmd_seq, ih]

/-- With no injected failure, every unconditional screenshot statement of a
list produces its file. -/
theorem shot_emitted (env : Env) (hf : env.failAt = none) (p : String) (fp : Bool) :
    ∀ (l : List Cmd) (s : RunState), s.raised = false → Cmd.snap p fp ∈ l →
      Event.shot p fp ∈ (execCmd env (seqList l) s).trace := by
  intro l
  induction l with
  | nil => intro s _ hm; exact absurd hm (by simp)
  | cons c cs ih =>
      intro s hr hm
      rw [seqList_cons, execCmd_seq]
      rcases List.mem_cons.mp hm with hc | hcs
      · have h1 : execCmd env c s
            = { s with fops := s.fops + 1, trace := s.trace ++ [Event.shot p fp] } := by
          rw [← hc]
          simp [execCmd, fallible, hr, hf]
        rw [h1]
        obtain ⟨d, hd⟩ := execCmd_trace_ext env (seqList cs)
          { s with fops := s.fops + 1, trace := s.trace ++ [Event.shot p fp] }
        rw [hd]
        simp
      · have hr' : (execCmd env c s).raised = false := by
          rw [execCmd_noFail env hf]; exact hr
        exact ih _ hr' hcs

/-! ## Two-run simulation: a failing run is cut short -/

/-- Relation between a run with an injected failure and the same run without
one: either no exception has been raised yet and the states coincide, or the
failing run is frozen and its trace is a prefix of the healthy run's trace. -/
def SimR (s t : RunState) : Prop :=
  (s.raised = false ∧ s = t) ∨ (s.raised = true ∧ t.raised = false ∧ s.trace <+: t.trace)

theorem execCmd_sim (env : Env) (c : Cmd) :
    ∀ s t : RunState, SimR s t →
      SimR (execCmd env c s) (execCmd ⟨none, env.vis⟩ c t) := by
  have hright : ∀ (c : Cmd) (s t : RunState),
      s.raised = true → t.raised = false → s.trace <+: t.trace →
      SimR (execCmd env c s) (execCmd ⟨none, env.vis⟩ c t) := by
    intro c s t hs ht hpre
    rw [execCmd_of_raised env c s hs]
    obtain ⟨d, hd⟩ := execCmd_trace_ext ⟨none, env.vis⟩ c t
    refine Or.inr ⟨hs, ?_, ?_⟩
    · rw [execCmd_noFail ⟨none, env.vis⟩ rfl]; exact ht
    · obtain ⟨r, hr⟩ := hpre
      exact ⟨r ++ d, by rw [hd, ← hr, List.append_assoc]⟩
  induction c with
  | act ev =>
      intro s t hsim
      rcases hsim with ⟨hr, rfl⟩ | ⟨hs, ht, hpre⟩
      · by_cases h2 : env.failAt = some s.fops
        · refine Or.inr ⟨?_, ?_, ?_⟩
          · simp [execCmd, fallible, hr, h2]
          · simp [execCmd, fallible, hr]
          · have hl : (execCmd env (Cmd.act ev) s).trace = s.trace := by
              simp [execCmd, fallible, hr, h2]
            have hrt : (execCmd ⟨none, env.vis⟩ (Cmd.act ev) s).trace = s.trace ++ [ev] := by
              simp [execCmd, fallible, hr]
            rw [hl, hrt]
            exact ⟨[ev], rfl⟩
        · have hsame : execCmd env (Cmd.act ev) s = execCmd ⟨none, env.vis⟩ (Cmd.act ev) s := by
            simp [execCmd, fallible, hr, h2]
          refine Or.inl ⟨?_, hsame⟩
          rw [hsame, execCmd_noFail ⟨none, env.vis⟩ rfl]
          exact hr
      · exact hright _ s t hs ht hpre
  | pause ms =>
      intro s t hsim
      rcases hsim with ⟨hr, rfl⟩ | ⟨hs, ht, hpre⟩
      · refine Or.inl ⟨?_, rfl⟩
        simp [execCmd, emit, hr]
      · exact hright _ s t hs ht hpre
  | note m =>
      intro s t hsim
      rcases hsim with ⟨hr, rfl⟩ | ⟨hs, ht, hpre⟩
      · refine Or.inl ⟨?_, rfl⟩
        simp [execCmd, emit, hr]
      · exact hright _ s t hs ht hpre
  | snap p fp =>
      intro s t hsim
      rcases hsim with ⟨hr, rfl⟩ | ⟨hs, ht, hpre⟩
      · by_cases h2 : env.failAt = some s.fops
        · refine Or.inr ⟨?_, ?_, ?_⟩
          · simp [execCmd, fallible, hr, h2]
          · simp [execCmd, fallible, hr]
          · have hl : (execCmd env (Cmd.snap p fp) s).trace = s.trace := by
              simp [execCmd, fallible, hr, h2]
            have hrt : (execCmd ⟨none, env.vis⟩ (Cmd.snap p fp) s).trace
                = s.trace ++ [Event.shot p fp] := by
              simp [execCmd, fallible, hr]
            rw [hl, hrt]
            exact ⟨[Event.shot p fp], rfl⟩
        · have hsame : execCmd env (Cmd.snap p fp) s = execCmd ⟨none, env.vis⟩ (Cmd.snap p fp) s := by
            simp [execCmd, fallible, hr, h2]
          refine Or.inl ⟨?_, hsame⟩
          rw [hsame, execCmd_noFail ⟨none, env.vis⟩ rfl]
          exact hr
      · exact hright _ s t hs ht hpre
  | branch sel th el iht ihe =>
      intro s t hsim
      rcases hsim with ⟨hr, rfl⟩ | ⟨hs, ht, hpre⟩
      · by_cases hv : env.vis.getD s.probes false = true
        · rw [execCmd_branch_true env sel th el s hr hv,
            execCmd_branch_true ⟨none, env.vis⟩ sel th el s hr hv]
          exact iht _ _ (Or.inl ⟨by simp [hr], rfl⟩)
        · have hv' : env.vis.getD s.probes false = false := by simpa using hv
          rw [execCmd_branch_false env sel th el s hr hv',
            execCmd_branch_false ⟨none, env.vis⟩ sel th el s hr hv']
          exact ihe _ _ (Or.inl ⟨by simp [hr], rfl⟩)
      · exact hright _ s t hs ht hpre
  | seq a b iha ihb =>
      intro s t hsim
      rw [execCmd_seq, execCmd_seq]
      exact ihb _ _ (iha _ _ hsim)
  | skip => intro s t hsim; exact hsim

/-! ## Screenshots are taken only after the settle delay -/

/-- A screenshot event is admissible only directly after a sleep. -/
def shotOkE (prev : Option Event) (e : Event) : Bool :=
  if isShot e then
    match prev with
    | some q => isSleep q
    | none => false
  else true

/-- Scan of a trace checking that every screenshot is immediately preceded
by a settle sleep; `prev` is the event before the scanned segment. -/
def sbFrom : Option Event → List Event → Bool
  | _, [] => true
  | prev, e :: rest => shotOkE prev e && sbFrom (some e) rest

/-- Every screenshot in the trace is written immediately after a settle
sleep finished. -/
def settledTrace (l : List Event) : Bool := sbFrom none l

/-- The last event of a segment, given the event before it. -/
def lastE (prev : Option Event) : List Event → Option Event
  | [] => prev
  | e :: rest => lastE (some e) rest

/-- The trace ends with a completed sleep. -/
def endsSleep (l : List Event) : Bool :=
  match lastE none l with
  | some q => isSleep q
  | none => false

theorem lastE_append_one (l : List Event) :
    ∀ (prev : Option Event) (e : Event), lastE prev (l ++ [e]) = some e := by
  induction l with
  | nil => intro prev e; rfl
  | cons a l ih => intro prev e; exact ih (some a) e

theorem sbFrom_append_one (l : List Event) :
    ∀ (prev : Option Event) (e : Event),
      sbFrom prev (l ++ [e]) = (sbFrom prev l && shotOkE (lastE prev l) e) := by
  induction l with
  | nil => intro prev e; simp [sbFrom, lastE]
  | cons a l ih =>
      intro prev e
      show sbFrom prev (a :: (l ++ [e])) = _
      rw [show sbFrom prev (a :: (l ++ [e])) = (shotOkE prev a && sbFrom (some a) (l ++ [e])) from rfl,
        ih (some a) e,
        show sbFrom prev (a :: l) = (shotOkE prev a && sbFrom (some a) l) from rfl,
        show lastE prev (a :: l) = lastE (some a) l from rfl,
        Bool.and_assoc]

theorem settled_append (l : List Event) (e : Event)
    (hs : settledTrace l = true)
    (h : isShot e = false ∨ endsSleep l = true) :
    settledTrace (l ++ [e]) = true := by
  unfold settledTrace at *
  rw [sbFrom_append_one, hs, Bool.true_and]
  rcases h with h | h
  · simp [shotOkE, h]
  · unfold endsSleep at h
    unfold shotOkE
    cases hl : lastE none l with
    | none => rw [hl] at h; exact absurd h (by simp)
    | some q =>
        rw [hl] at h
        split
        · exact h
        · rfl

theorem endsSleep_append (l : List Event) (e : Event) :
    endsSleep (l ++ [e]) = isSleep e := by
  unfold endsSleep
  rw [lastE_append_one]

/-- Syntactic check on commands: every screenshot statement directly follows
a settle sleep (and plain actions never record screenshot events).  The
boolean argument tracks whether the previous statement was a completed
sleep; the second component of the result is that flag after the command. -/
def wpG : Bool → Cmd → Bool × Bool
  | _, Cmd.act ev => (!(isShot ev), false)
  | _, Cmd.pause _ => (true, true)
  | _, Cmd.note _ => (true, false)
  | prev, Cmd.snap _ _ => (prev, false)
  | _, Cmd.branch _ t e => ((wpG false t).1 && (wpG false e).1, false)
  | prev, Cmd.seq a b =>
      ((wpG prev a).1 && (wpG (wpG prev a).2 b).1, (wpG (wpG prev a).2 b).2)
  | prev, Cmd.skip => (true, prev)

/-- Semantic preservation: executing a well-paused command keeps the trace
settled, and the outgoing pause flag is honest about the final trace. -/
theorem exec_settled (env : Env) (c : Cmd) :
    ∀ (b : Bool) (s : RunState),
      (wpG b c).1 = true →
      settledTrace s.trace = true →
      (b = true → s.raised = true ∨ endsSleep s.trace = true) →
      settledTrace (execCmd env c s).trace = true ∧
        ((wpG b c).2 = true →
          (execCmd env c s).raised = true ∨ endsSleep (execCmd env c s).trace = true) := by
  induction c with
  | act ev =>
      intro b s hw hst _
      have hev : isShot ev = false := by
        simp [wpG] at hw; exact hw
      constructor
      · by_cases h : s.raised = true
        · rw [execCmd_of_raised env _ s h]; exact hst
        · by_cases h2 : env.failAt = some s.fops
          · have : (execCmd env (Cmd.act ev) s).trace = s.trace := by
              simp [execCmd, fallible, h, h2]
            rw [this]; exact hst
          · have : (execCmd env (Cmd.act ev) s).trace = s.trace ++ [ev] := by
              simp [execCmd, fallible, h, h2]
            rw [this]
            exact settled_append _ _ hst (Or.inl hev)
      · intro hfl; exact absurd hfl (by simp [wpG])
  | pause ms =>
      intro b s _ hst _
      by_cases h : s.raised = true
      · rw [execCmd_of_raised env _ s h]
        exact ⟨hst, fun _ => Or.inl h⟩
      · have htr : (execCmd env (Cmd.pause ms) s).trace = s.trace ++ [Event.sleep ms] := by
          simp [execCmd, emit, h]
        constructor
        · rw [htr]; exact settled_append _ _ hst (Or.inl (by simp [isShot]))
        · intro _
          right
          rw [htr, endsSleep_append]
          rfl
  | note m =>
      intro b s _ hst _
      constructor
      · by_cases h : s.raised = true
        · rw [execCmd_of_raised env _ s h]; exact hst
        · have : (execCmd env (Cmd.note m) s).trace = s.trace ++ [Event.log m] := by
            simp [execCmd, emit, h]
          rw [this]
          exact settled_append _ _ hst (Or.inl (by simp [isShot]))
      · intro hfl; exact absurd hfl (by simp [wpG])
  | snap p fp =>
      intro b s hw hst hfl
      have hb : b = true := by simpa [wpG] using hw
      constructor
      · by_cases h : s.raised = true
        · rw [execCmd_of_raised env _ s h]; exact hst
        · rcases hfl hb with hcontra | hsleep
          · exact absurd hcontra (by simp [h])
          · by_cases h2 : env.failAt = some s.fops
            · have : (execCmd env (Cmd.snap p fp) s).trace = s.trace := by
                simp [execCmd, fallible, h, h2]
              rw [this]; exact hst
            · have : (execCmd env (Cmd.snap p fp) s).trace = s.trace ++ [Event.shot p fp] := by
                simp [execCmd, fallible, h, h2]
              rw [this]
              exact settled_append _ _ hst (Or.inr hsleep)
      · intro hcontra; exact absurd hcontra (by simp [wpG])
  | branch sel t e iht ihe =>
      intro b s hw hst _
      have hwt : (wpG false t).1 = true := by
        have h' := hw; simp [wpG] at h'; exact h'.1
      have hwe : (wpG false e).1 = true := by
        have h' := hw; simp [wpG] at h'; exact h'.2
      constructor
      · by_cases h : s.raised = true
        · rw [execCmd_of_raised env _ s h]; exact hst
        · have h' : s.raised = false := by simpa using h
          have hst' : settledTrace (s.trace ++ [Event.probe sel]) = true :=
            settled_append _ _ hst (Or.inl (by simp [isShot]))
          by_cases hv : env.vis.getD s.probes false = true
          · rw [execCmd_branch_true env sel t e s h' hv]
            exact (iht false _ hwt hst' (by simp)).1
          · have hv' : env.vis.getD s.probes false = false := by simpa using hv
            rw [execCmd_branch_false env sel t e s h' hv']
            exact (ihe false _ hwe hst' (by simp)).1
      · intro hcontra; exact absurd hcontra (by simp [wpG])
  | seq a b2 iha ihb =>
      intro b s hw hst hfl
      have hwa : (wpG b a).1 = true := by
        have h' := hw; simp [wpG] at h'; exact h'.1
      have hwb : (wpG (wpG b a).2 b2).1 = true := by
        have h' := hw; simp [wpG] at h'; exact h'.2
      obtain ⟨hst1, hfl1⟩ := iha b s hwa hst hfl
      obtain ⟨hst2, hfl2⟩ := ihb (wpG b a).2 (execCmd env a s) hwb hst1 hfl1
      rw [execCmd_seq]
      refine ⟨hst2, ?_⟩
      intro hx
      apply hfl2
      have : (wpG b (Cmd.seq a b2)).2 = (wpG (wpG b a).2 b2).2 := by
        simp [wpG]
      rw [this] at hx
      exact hx
  | skip =>
      intro b s _ hst hfl
      exact ⟨hst, fun hb => hfl (by simpa [wpG] using hb)⟩

/-! ## Scope and wrapper lemmas -/

theorem withPW_trace (f : RunState → RunState) (s : RunState) :
    (withPW f s).trace = (f s).trace := by
  show (if (f s).closeCount = 0 then { f s with closeCount := 1 } else f s).trace = (f s).trace
  split <;> rfl

theorem withPW_raised (f : RunState → RunState) (s : RunState) :
    (withPW f s).raised = (f s).raised := by
  show (if (f s).closeCount = 0 then { f s with closeCount := 1 } else f s).raised = (f s).raised
  split <;> rfl

theorem withPW_closeCount (f : RunState → RunState) (s : RunState)
    (h : (f s).closeCount = 0 ∨ (f s).closeCount = 1) : (withPW f s).closeCount = 1 := by
  show (if (f s).closeCount = 0 then { f s with closeCount := 1 } else f s).closeCount = 1
  rcases h with h | h <;> simp [h]

theorem closeB_raised (s : RunState) : (closeB s).raised = s.raised := by
  unfold closeB
  split <;> rfl

theorem closeB_trace (s : RunState) :
    (closeB s).trace = s.trace ∨ (closeB s).trace = s.trace ++ [Event.closeBrowser] := by
  unfold closeB
  split
  · exact Or.inl rfl
  · exact Or.inr rfl

theorem closeB_trace_of_ok (s : RunState) (h : s.raised = false) :
    (closeB s).trace = s.trace ++ [Event.closeBrowser] := by
  unfold closeB
  rw [if_neg (by simp [h])]

theorem closeB_closeCount (s : RunState) (h : s.closeCount = 0) :
    (closeB s).closeCount = 0 ∨ (closeB s).closeCount = 1 := by
  unfold closeB
  split
  · exact Or.inl h
  · exact Or.inr (by simp [h])

theorem emit_raised (ev : Event) (s : RunState) : (emit ev s).raised = s.raised := by
  unfold emit
  split <;> rfl

theorem emit_trace (ev : Event) (s : RunState) :
    (emit ev s).trace = s.trace ∨ (emit ev s).trace = s.trace ++ [ev] := by
  unfold emit
  split
  · exact Or.inl rfl
  · exact Or.inr rfl

theorem emit_closeCount (ev : Event) (s : RunState) :
    (emit ev s).closeCount = s.closeCount := by
  unfold emit
  split <;> rfl

theorem handleExc_raised (s : RunState) : (handleExc s).raised = false := by
  unfold handleExc
  split
  · rfl
  · simp_all

theorem handleExc_closeCount (s : RunState) : (handleExc s).closeCount = s.closeCount := by
  unfold handleExc
  split <;> rfl

theorem handleExc_trace (s : RunState) :
    (handleExc s).trace = s.trace ∨ (handleExc s).trace = s.trace ++ [Event.log "Error"] := by
  unfold handleExc
  split
  · exact Or.inr rfl
  · exact Or.inl rfl

theorem filter_shot_append_nonshot (l : List Event) (e : Event) (h : isShot e = false) :
    (l ++ [e]).filter isShot = l.filter isShot := by
  rw [List.filter_append]
  simp [List.filter, h]

theorem filter_shot_mono {l1 l2 : List Event} (h : l1 <+: l2) :
    l1.filter isShot <+: l2.filter isShot := by
  obtain ⟨r, hr⟩ := h
  exact ⟨r.filter isShot, by rw [← hr, List.filter_append]⟩

theorem init_mkdir :
    emit (Event.mkdir "screenshots") initState
      = ⟨0, 0, [Event.mkdir "screenshots"], false, 0⟩ := rfl

/-! ## Per-script helper lemmas -/

theorem capture_screenshots_main_closeCount (env : Env) :
    (capture_screenshots_main env).closeCount = 1 := by
  unfold capture_screenshots_main capture_screenshots
  apply withPW_closeCount
  apply closeB_closeCount
  rw [execCmd_closeCount]
  rfl

theorem capture_app_screenshots_closeCount (env : Env) :
    (capture_app_screenshots env).closeCount = 1 := by
  unfold capture_app_screenshots
  apply withPW_closeCount
  apply closeB_closeCount
  rw [handleExc_closeCount, execCmd_closeCount]
  rfl

theorem take_screenshots_run_closeCount (env : Env) :
    (take_screenshots_run env).closeCount = 1 := by
  unfold take_screenshots_run
  apply withPW_closeCount
  rw [emit_closeCount]
  apply closeB_closeCount
  rw [execCmd_closeCount]
  rfl

theorem test_dashboard_run_closeCount (env : Env) :
    (test_dashboard_run env).closeCount = 1 := by
  unfold test_dashboard_run
  apply withPW_closeCount
  apply closeB_closeCount
  rw [execCmd_closeCount]
  rfl

theorem closeB_of_raised (s : RunState) (h : s.raised = true) : closeB s = s := by
  unfold closeB
  rw [if_pos h]

theorem handleExc_of_ok (s : RunState) (h : s.raised = false) : handleExc s = s := by
  unfold handleExc
  rw [if_neg (by simp [h])]

/-- Trace decomposition for a run of shape
`with playwright: body; browser.close()`. -/
theorem run_body_trace (env : Env) (c : Cmd) (s : RunState) :
    ∃ d, (withPW (fun t => closeB (execCmd env c t)) s).trace = s.trace ++ d
      ∧ (d.filter isShot).Sublist ((cmdEvents c).filter isShot)
      ∧ ∀ e ∈ d, e ∈ cmdEvents c ∨ e = Event.closeBrowser := by
  rw [withPW_trace]
  obtain ⟨d0, hd0, hsub, hmem⟩ := execCmd_trace env c s
  rcases closeB_trace (execCmd env c s) with hc | hc
  · exact ⟨d0, by rw [hc, hd0], hsub, fun e he => Or.inl (hmem e he)⟩
  · refine ⟨d0 ++ [Event.closeBrowser], ?_, ?_, ?_⟩
    · rw [hc, hd0, List.append_assoc]
    · rw [filter_shot_append_nonshot _ _ (by simp [isShot])]
      exact hsub
    · intro e he
      rcases List.mem_append.mp he with he | he
      · exact Or.inl (hmem e he)
      · simp at he
        exact Or.inr he

theorem capture_screenshots_main_trace (env : Env) :
    ∃ d, (capture_screenshots_main env).trace = Event.mkdir "screenshots" :: d
      ∧ (d.filter isShot).Sublist (staticShots capture_screenshots_steps)
      ∧ ∀ e ∈ d, e ∈ cmdEvents (seqList capture_screenshots_steps) ∨ e = Event.closeBrowser := by
  unfold capture_screenshots_main capture_screenshots
  obtain ⟨d, hd, hsub, hmem⟩ :=
    run_body_trace env (seqList capture_screenshots_steps) (emit (Event.mkdir "screenshots") initState)
  exact ⟨d, by rw [hd]; rfl, hsub, hmem⟩

theorem test_dashboard_run_trace (env : Env) :
    ∃ d, (test_dashboard_run env).trace = d
      ∧ (d.filter isShot).Sublist (staticShots test_dashboard_steps)
      ∧ ∀ e ∈ d, e ∈ cmdEvents (seqList test_dashboard_steps) ∨ e = Event.closeBrowser := by
  unfold test_dashboard_run
  obtain ⟨d, hd, hsub, hmem⟩ :=
    run_body_trace env (seqList test_dashboard_steps) initState
  exact ⟨d, by rw [hd]; rfl, hsub, hmem⟩

theorem capture_app_screenshots_trace (env : Env) :
    ∃ d, (capture_app_screenshots env).trace = Event.mkdir "screenshots" :: d
      ∧ (d.filter isShot).Sublist (staticShots capture_app_steps)
      ∧ ∀ e ∈ d, e ∈ cmdEvents (seqList capture_app_steps)
          ∨ e = Event.log "Error" ∨ e = Event.closeBrowser := by
  unfold capture_app_screenshots
  rw [withPW_trace]
  show ∃ d, (closeB (handleExc (execCmd env (seqList capture_app_steps)
      (emit (Event.mkdir "screenshots") initState)))).trace = _ ∧ _ ∧ _
  obtain ⟨d0, hd0, hsub, hmem⟩ :=
    execCmd_trace env (seqList capture_app_steps) (emit (Event.mkdir "screenshots") initState)
  have hcb := closeB_trace_of_ok _
    (handleExc_raised (execCmd env (seqList capture_app_steps)
      (emit (Event.mkdir "screenshots") initState)))
  rcases handleExc_trace (execCmd env (seqList capture_app_steps)
      (emit (Event.mkdir "screenshots") initState)) with hh | hh
  · refine ⟨d0 ++ [Event.closeBrowser], ?_, ?_, ?_⟩
    · rw [hcb, hh, hd0]
      show (Event.mkdir "screenshots" :: d0) ++ [Event.closeBrowser] = _
      simp
    · rw [filter_shot_append_nonshot _ _ (by simp [isShot])]
      exact hsub
    · intro e he
      rcases List.mem_append.mp he with he | he
      · exact Or.inl (hmem e he)
      · simp at he
        exact Or.inr (Or.inr he)
  · refine ⟨d0 ++ [Event.log "Error"] ++ [Event.closeBrowser], ?_, ?_, ?_⟩
    · rw [hcb, hh, hd0]
      show ((Event.mkdir "screenshots" :: d0) ++ [Event.log "Error"]) ++ [Event.closeBrowser] = _
      simp
    · rw [filter_shot_append_nonshot _ _ (by simp [isShot]),
        filter_shot_append_nonshot _ _ (by simp [isShot])]
      exact hsub
    · intro e he
      rcases List.mem_append.mp he with he | he
      · rcases List.mem_append.mp he with he | he
        · exact Or.inl (hmem e he)
        · simp at he
          exact Or.inr (Or.inl he)
      · simp at he
        exact Or.inr (Or.inr he)

theorem take_screenshots_run_trace (env : Env) :
    ∃ d, (take_screenshots_run env).trace = Event.mkdir "screenshots" :: d
      ∧ (d.filter isShot).Sublist (staticShots take_screenshots_steps)
      ∧ ∀ e ∈ d, e ∈ cmdEvents (seqList take_screenshots_steps)
          ∨ e = Event.closeBrowser ∨ e = Event.log "All screenshots saved" := by
  unfold take_screenshots_run
  rw [withPW_trace]
  show ∃ d, (emit (Event.log "All screenshots saved") (closeB (execCmd env
      (seqList take_screenshots_steps) (emit (Event.mkdir "screenshots") initState)))).trace
      = _ ∧ _ ∧ _
  obtain ⟨d0, hd0, hsub, hmem⟩ :=
    execCmd_trace env (seqList take_screenshots_steps) (emit (Event.mkdir "screenshots") initState)
  rcases closeB_trace (execCmd env (seqList take_screenshots_steps)
      (emit (Event.mkdir "screenshots") initState)) with hc | hc <;>
    rcases emit_trace (Event.log "All screenshots saved") (closeB (execCmd env
      (seqList take_screenshots_steps) (emit (Event.mkdir "screenshots") initState))) with he | he
  · refine ⟨d0, ?_, hsub, fun e hme => Or.inl (hmem e hme)⟩
    rw [he, hc, hd0]
    rfl
  · refine ⟨d0 ++ [Event.log "All screenshots saved"], ?_, ?_, ?_⟩
    · rw [he, hc, hd0]
      show (Event.mkdir "screenshots" :: d0) ++ _ = _
      simp
    · rw [filter_shot_append_nonshot _ _ (by simp [isShot])]
      exact hsub
    · intro e hme
      rcases List.mem_append.mp hme with hme | hme
      · exact Or.inl (hmem e hme)
      · simp at hme
        exact Or.inr (Or.inr hme)
  · refine ⟨d0 ++ [Event.closeBrowser], ?_, ?_, ?_⟩
    · rw [he, hc, hd0]
      show (Event.mkdir "screenshots" :: d0) ++ _ = _
      simp
    · rw [filter_shot_append_nonshot _ _ (by simp [isShot])]
      exact hsub
    · intro e hme
      rcases List.mem_append.mp hme with hme | hme
      · exact Or.inl (hmem e hme)
      · simp at hme
        exact Or.inr (Or.inl hme)
  · refine ⟨d0 ++ [Event.closeBrowser] ++ [Event.log "All screenshots saved"], ?_, ?_, ?_⟩
    · rw [he, hc, hd0]
      show ((Event.mkdir "screenshots" :: d0) ++ _) ++ _ = _
      simp
    · rw [filter_shot_append_nonshot _ _ (by simp [isShot]),
        filter_shot_append_nonshot _ _ (by simp [isShot])]
      exact hsub
    · intro e hme
      rcases List.mem_append.mp hme with hme | hme
      · rcases List.mem_append.mp hme with hme | hme
        · exact Or.inl (hmem e hme)
        · simp at hme
          exact Or.inr (Or.inl hme)
      · simp at hme
        exact Or.inr (Or.inr hme)

theorem filter_shot_cons_mkdir (n : String) (d : List Event) :
    (Event.mkdir n :: d).filter isShot = d.filter isShot := by
  simp [List.filter_cons, isShot]

theorem capture_screenshots_main_shots_sub (env : Env) :
    (shotsOf (capture_screenshots_main env)).Sublist (staticShots capture_screenshots_steps) := by
  obtain ⟨d, hd, hsub, _⟩ := capture_screenshots_main_trace env
  unfold shotsOf
  rw [hd, filter_shot_cons_mkdir]
  exact hsub

theorem capture_app_screenshots_shots_sub (env : Env) :
    (shotsOf (capture_app_screenshots env)).Sublist (staticShots capture_app_steps) := by
  obtain ⟨d, hd, hsub, _⟩ := capture_app_screenshots_trace env
  unfold shotsOf
  rw [hd, filter_shot_cons_mkdir]
  exact hsub

theorem take_screenshots_run_shots_sub (env : Env) :
    (shotsOf (take_screenshots_run env)).Sublist (staticShots take_screenshots_steps) := by
  obtain ⟨d, hd, hsub, _⟩ := take_screenshots_run_trace env
  unfold shotsOf
  rw [hd, filter_shot_cons_mkdir]
  exact hsub

theorem test_dashboard_run_shots_sub (env : Env) :
    (shotsOf (test_dashboard_run env)).Sublist (staticShots test_dashboard_steps) := by
  obtain ⟨d, hd, hsub, _⟩ := test_dashboard_run_trace env
  unfold shotsOf
  rw [hd]
  exact hsub

/-! ## A failing run produces a prefix of the healthy run's screenshots -/

theorem capture_screenshots_main_shots_pre (env : Env) :
    shotsOf (capture_screenshots_main env)
      <+: shotsOf (capture_screenshots_main ⟨none, env.vis⟩) := by
  unfold capture_screenshots_main capture_screenshots shotsOf
  rw [withPW_trace, withPW_trace]
  show ((closeB (execCmd env (seqList capture_screenshots_steps)
        (emit (Event.mkdir "screenshots") initState))).trace.filter isShot)
      <+: ((closeB (execCmd ⟨none, env.vis⟩ (seqList capture_screenshots_steps)
        (emit (Event.mkdir "screenshots") initState))).trace.filter isShot)
  have hsim := execCmd_sim env (seqList capture_screenshots_steps)
    (emit (Event.mkdir "screenshots") initState) (emit (Event.mkdir "screenshots") initState)
    (Or.inl ⟨rfl, rfl⟩)
  rcases hsim with ⟨_, heq⟩ | ⟨hs, ht, hpre⟩
  · rw [heq]
  · rw [closeB_of_raised _ hs, closeB_trace_of_ok _ ht,
      filter_shot_append_nonshot _ _ (by simp [isShot])]
    exact filter_shot_mono hpre

theorem test_dashboard_run_shots_pre (env : Env) :
    shotsOf (test_dashboard_run env) <+: shotsOf (test_dashboard_run ⟨none, env.vis⟩) := by
  unfold test_dashboard_run shotsOf
  rw [withPW_trace, withPW_trace]
  show ((closeB (execCmd env (seqList test_dashboard_steps) initState)).trace.filter isShot)
      <+: ((closeB (execCmd ⟨none, env.vis⟩ (seqList test_dashboard_steps)
        initState)).trace.filter isShot)
  have hsim := execCmd_sim env (seqList test_dashboard_steps) initState initState
    (Or.inl ⟨rfl, rfl⟩)
  rcases hsim with ⟨_, heq⟩ | ⟨hs, ht, hpre⟩
  · rw [heq]
  · rw [closeB_of_raised _ hs, closeB_trace_of_ok _ ht,
      filter_shot_append_nonshot _ _ (by simp [isShot])]
    exact filter_shot_mono hpre

theorem capture_app_screenshots_shots_pre (env : Env) :
    shotsOf (capture_app_screenshots env)
      <+: shotsOf (capture_app_screenshots ⟨none, env.vis⟩) := by
  unfold capture_app_screenshots shotsOf
  rw [withPW_trace, withPW_trace]
  show ((closeB (handleExc (execCmd env (seqList capture_app_steps)
        (emit (Event.mkdir "screenshots") initState)))).trace.filter isShot)
      <+: ((closeB (handleExc (execCmd ⟨none, env.vis⟩ (seqList capture_app_steps)
        (emit (Event.mkdir "screenshots") initState)))).trace.filter isShot)
  have hsim := execCmd_sim env (seqList capture_app_steps)
    (emit (Event.mkdir "screenshots") initState) (emit (Event.mkdir "screenshots") initState)
    (Or.inl ⟨rfl, rfl⟩)
  rcases hsim with ⟨_, heq⟩ | ⟨hs, ht, hpre⟩
  · rw [heq]
  · have hl : (handleExc (execCmd env (seqList capture_app_steps)
        (emit (Event.mkdir "screenshots") initState))).trace
        = (execCmd env (seqList capture_app_steps)
            (emit (Event.mkdir "screenshots") initState)).trace ++ [Event.log "Error"] := by
      unfold handleExc
      rw [if_pos hs]
    have hr : handleExc (execCmd ⟨none, env.vis⟩ (seqList capture_app_steps)
        (emit (Event.mkdir "screenshots") initState))
        = execCmd ⟨none, env.vis⟩ (seqList capture_app_steps)
            (emit (Event.mkdir "screenshots") initState) := handleExc_of_ok _ ht
    rw [closeB_trace_of_ok _ (handleExc_raised _), closeB_trace_of_ok _ (handleExc_raised _),
      hl, hr, filter_shot_append_nonshot _ _ (by simp [isShot]),
      filter_shot_append_nonshot _ _ (by simp [isShot]),
      filter_shot_append_nonshot _ _ (by simp [isShot])]
    exact filter_shot_mono hpre

theorem emit_of_raised (ev : Event) (s : RunState) (h : s.raised = true) :
    emit ev s = s := by
  unfold emit
  rw [if_pos h]

theorem emit_trace_of_ok (ev : Event) (s : RunState) (h : s.raised = false) :
    (emit ev s).trace = s.trace ++ [ev] := by
  unfold emit
  rw [if_neg (by simp [h])]

theorem take_screenshots_run_shots_pre (env : Env) :
    shotsOf (take_screenshots_run env) <+: shotsOf (take_screenshots_run ⟨none, env.vis⟩) := by
  unfold take_screenshots_run shotsOf
  rw [withPW_trace, withPW_trace]
  show ((emit (Event.log "All screenshots saved") (closeB (execCmd env
        (seqList take_screenshots_steps) (emit (Event.mkdir "screenshots")
          initState)))).trace.filter isShot)
      <+: ((emit (Event.log "All screenshots saved") (closeB (execCmd ⟨none, env.vis⟩
        (seqList take_screenshots_steps) (emit (Event.mkdir "screenshots")
          initState)))).trace.filter isShot)
  have hsim := execCmd_sim env (seqList take_screenshots_steps)
    (emit (Event.mkdir "screenshots") initState) (emit (Event.mkdir "screenshots") initState)
    (Or.inl ⟨rfl, rfl⟩)
  rcases hsim with ⟨_, heq⟩ | ⟨hs, ht, hpre⟩
  · rw [heq]
  · have hlc : closeB (execCmd env (seqList take_screenshots_steps)
        (emit (Event.mkdir "screenshots") initState))
        = execCmd env (seqList take_screenshots_steps)
            (emit (Event.mkdir "screenshots") initState) := closeB_of_raised _ hs
    have hle : emit (Event.log "All screenshots saved") (closeB (execCmd env
        (seqList take_screenshots_steps) (emit (Event.mkdir "screenshots") initState)))
        = closeB (execCmd env (seqList take_screenshots_steps)
            (emit (Event.mkdir "screenshots") initState)) :=
      emit_of_raised _ _ (by rw [hlc]; exact hs)
    have hrr : (closeB (execCmd ⟨none, env.vis⟩ (seqList take_screenshots_steps)
        (emit (Event.mkdir "screenshots") initState))).raised = false := by
      rw [closeB_raised]
      exact ht
    have hre : (emit (Event.log "All screenshots saved") (closeB (execCmd ⟨none, env.vis⟩
        (seqList take_screenshots_steps) (emit (Event.mkdir "screenshots") initState)))).trace
        = (closeB (execCmd ⟨none, env.vis⟩ (seqList take_screenshots_steps)
            (emit (Event.mkdir "screenshots") initState))).trace
          ++ [Event.log "All screenshots saved"] :=
      emit_trace_of_ok _ _ hrr
    rw [hle, hlc, hre, closeB_trace_of_ok _ ht,
      filter_shot_append_nonshot _ _ (by simp [isShot]),
      filter_shot_append_nonshot _ _ (by simp [isShot])]
    exact filter_shot_mono hpre

/-! ## Settled traces for the walkthrough scripts -/

theorem capture_screenshots_main_settled (env : Env) :
    settledTrace (capture_screenshots_main env).trace = true := by
  unfold capture_screenshots_main capture_screenshots
  rw [withPW_trace]
  show settledTrace (closeB (execCmd env (seqList capture_screenshots_steps)
      (emit (Event.mkdir "screenshots") initState))).trace = true
  have hst := (exec_settled env (seqList capture_screenshots_steps) false
    (emit (Event.mkdir "screenshots") initState) (by decide) (by decide) (by simp)).1
  rcases closeB_trace (execCmd env (seqList capture_screenshots_steps)
      (emit (Event.mkdir "screenshots") initState)) with hc | hc
  · rw [hc]; exact hst
  · rw [hc]
    exact settled_append _ _ hst (Or.inl (by simp [isShot]))

theorem take_screenshots_run_settled (env : Env) :
    settledTrace (take_screenshots_run env).trace = true := by
  unfold take_screenshots_run
  rw [withPW_trace]
  show settledTrace (emit (Event.log "All screenshots saved") (closeB (execCmd env
      (seqList take_screenshots_steps) (emit (Event.mkdir "screenshots") initState)))).trace = true
  have hst := (exec_settled env (seqList take_screenshots_steps) false
    (emit (Event.mkdir "screenshots") initState) (by decide) (by decide) (by simp)).1
  have hst2 : settledTrace (closeB (execCmd env (seqList take_screenshots_steps)
      (emit (Event.mkdir "screenshots") initState))).trace = true := by
    rcases closeB_trace (execCmd env (seqList take_screenshots_steps)
        (emit (Event.mkdir "screenshots") initState)) with hc | hc
    · rw [hc]; exact hst
    · rw [hc]
      exact settled_append _ _ hst (Or.inl (by simp [isShot]))
  rcases emit_trace (Event.log "All screenshots saved") (closeB (execCmd env
      (seqList take_screenshots_steps) (emit (Event.mkdir "screenshots") initState))) with he | he
  · rw [he]; exact hst2
  · rw [he]
    exact settled_append _ _ hst2 (Or.inl (by simp [isShot]))

theorem capture_app_screenshots_settled (env : Env) :
    settledTrace (capture_app_screenshots env).trace = true := by
  unfold capture_app_screenshots
  rw [withPW_trace]
  show settledTrace (closeB (handleExc (execCmd env (seqList capture_app_steps)
      (emit (Event.mkdir "screenshots") initState)))).trace = true
  have hst := (exec_settled env (seqList capture_app_steps) false
    (emit (Event.mkdir "screenshots") initState) (by decide) (by decide) (by simp)).1
  have hst2 : settledTrace (handleExc (execCmd env (seqList capture_app_steps)
      (emit (Event.mkdir "screenshots") initState))).trace = true := by
    rcases handleExc_trace (execCmd env (seqList capture_app_steps)
        (emit (Event.mkdir "screenshots") initState)) with hh | hh
    · rw [hh]; exact hst
    · rw [hh]
      exact settled_append _ _ hst (Or.inl (by simp [isShot]))
  rw [closeB_trace_of_ok _ (handleExc_raised _)]
  exact settled_append _ _ hst2 (Or.inl (by simp [isShot]))

/-! ## Exit codes -/

theorem capture_app_screenshots_exit (env : Env) :
    exitCode (capture_app_screenshots env) = 0 := by
  have h : (capture_app_screenshots env).raised = false := by
    unfold capture_app_screenshots
    rw [withPW_raised]
    show (closeB (handleExc (execCmd env (seqList capture_app_steps)
        (emit (Event.mkdir "screenshots") initState)))).raised = false
    rw [closeB_raised, handleExc_raised]
  unfold exitCode
  rw [h]
  rfl

theorem capture_screenshots_main_exit_ok (env : Env) (hf : env.failAt = none) :
    exitCode (capture_screenshots_main env) = 0 := by
  have h : (capture_screenshots_main env).raised = false := by
    unfold capture_screenshots_main capture_screenshots
    rw [withPW_raised]
    show (closeB (execCmd env (seqList capture_screenshots_steps)
        (emit (Event.mkdir "screenshots") initState))).raised = false
    rw [closeB_raised, execCmd_noFail env hf, emit_raised]
    rfl
  unfold exitCode
  rw [h]
  rfl

theorem take_screenshots_run_exit_ok (env : Env) (hf : env.failAt = none) :
    exitCode (take_screenshots_run env) = 0 := by
  have h : (take_screenshots_run env).raised = false := by
    unfold take_screenshots_run
    rw [withPW_raised]
    show (emit (Event.log "All screenshots saved") (closeB (execCmd env
        (seqList take_screenshots_steps) (emit (Event.mkdir "screenshots")
          initState)))).raised = false
    rw [emit_raised, closeB_raised, execCmd_noFail env hf, emit_raised]
    rfl
  unfold exitCode
  rw [h]
  rfl

theorem test_dashboard_run_exit_ok (env : Env) (hf : env.failAt = none) :
    exitCode (test_dashboard_run env) = 0 := by
  have h : (test_dashboard_run env).raised = false := by
    unfold test_dashboard_run
    rw [withPW_raised]
    show (closeB (execCmd env (seqList test_dashboard_steps) initState)).raised = false
    rw [closeB_raised, execCmd_noFail env hf]
    rfl
  unfold exitCode
  rw [h]
  rfl

/-! ## Failure of the initial navigation -/

/-- If the first statement of a list is a fallible action and the failure
oracle marks the current operation, the whole list aborts at once. -/
theorem exec_fail0_of_head_act (env : Env) (ev : Event) (l : List Cmd) (s : RunState)
    (hh : l.head? = some (Cmd.act ev)) (h : env.failAt = some s.fops) (hr : s.raised = false) :
    execCmd env (seqList l) s = { s with fops := s.fops + 1, raised := true } := by
  cases l with
  | nil => simp at hh
  | cons c cs =>
      have hc : c = Cmd.act ev := by simpa using hh
      subst hc
      rw [seqList_cons, execCmd_seq]
      have h1 : execCmd env (Cmd.act ev) s = { s with fops := s.fops + 1, raised := true } := by
        simp [execCmd, fallible, hr, h]
      rw [h1, execCmd_of_raised env _ _ rfl]

theorem capture_screenshots_main_fail0 (vis : List Bool) :
    exitCode (capture_screenshots_main ⟨some 0, vis⟩) = 1
      ∧ shotsOf (capture_screenshots_main ⟨some 0, vis⟩) = [] := by
  have hex : execCmd (⟨some 0, vis⟩ : Env) (seqList capture_screenshots_steps)
      (emit (Event.mkdir "screenshots") initState)
      = ⟨1, 0, [Event.mkdir "screenshots"], true, 0⟩ := by
    rw [init_mkdir]
    exact exec_fail0_of_head_act _ _ _ _ rfl rfl rfl
  constructor
  · have h1 : (capture_screenshots_main ⟨some 0, vis⟩).raised = true := by
      unfold capture_screenshots_main capture_screenshots
      rw [withPW_raised]
      show (closeB (execCmd (⟨some 0, vis⟩ : Env) (seqList capture_screenshots_steps)
          (emit (Event.mkdir "screenshots") initState))).raised = true
      rw [closeB_raised, hex]
    unfold exitCode
    rw [h1]
    rfl
  · have h2 : (capture_screenshots_main ⟨some 0, vis⟩).trace = [Event.mkdir "screenshots"] := by
      unfold capture_screenshots_main capture_screenshots
      rw [withPW_trace]
      show (closeB (execCmd (⟨some 0, vis⟩ : Env) (seqList capture_screenshots_steps)
          (emit (Event.mkdir "screenshots") initState))).trace = _
      rw [hex]
      rfl
    unfold shotsOf
    rw [h2]
    rfl

theorem take_screenshots_run_fail0 (vis : List Bool) :
    exitCode (take_screenshots_run ⟨some 0, vis⟩) = 1 := by
  have hstep : execCmd (⟨some 0, vis⟩ : Env) (seqList take_screenshots_steps)
      (emit (Event.mkdir "screenshots") initState)
      = ⟨1, 0, [Event.mkdir "screenshots",
          Event.log "Starting screenshot capture..."], true, 0⟩ := by
    have hsteps : take_screenshots_steps
        = Cmd.note "Starting screenshot capture..."
          :: Cmd.act (Event.goto "http://localhost:3001")
          :: take_screenshots_steps.tail.tail := rfl
    rw [hsteps, seqList_cons, execCmd_seq]
    have h1 : execCmd (⟨some 0, vis⟩ : Env) (Cmd.note "Starting screenshot capture...")
        (emit (Event.mkdir "screenshots") initState)
        = ⟨0, 0, [Event.mkdir "screenshots",
            Event.log "Starting screenshot capture..."], false, 0⟩ := rfl
    rw [h1]
    exact exec_fail0_of_head_act _ _ _ _ rfl rfl rfl
  have h1 : (take_screenshots_run ⟨some 0, vis⟩).raised = true := by
    unfold take_screenshots_run
    rw [withPW_raised]
    show (emit (Event.log "All screenshots saved") (closeB (execCmd (⟨some 0, vis⟩ : Env)
        (seqList take_screenshots_steps) (emit (Event.mkdir "screenshots")
          initState)))).raised = true
    rw [emit_raised, closeB_raised, hstep]
  unfold exitCode
  rw [h1]
  rfl

theorem capture_app_screenshots_fail0 (vis : List Bool) :
    shotsOf (capture_app_screenshots ⟨some 0, vis⟩) = []
      ∧ Event.log "Error" ∈ (capture_app_screenshots ⟨some 0, vis⟩).trace := by
  have hex : execCmd (⟨some 0, vis⟩ : Env) (seqList capture_app_steps)
      (emit (Event.mkdir "screenshots") initState)
      = ⟨1, 0, [Event.mkdir "screenshots"], true, 0⟩ := by
    rw [init_mkdir]
    exact exec_fail0_of_head_act _ _ _ _ rfl rfl rfl
  have h2 : (capture_app_screenshots ⟨some 0, vis⟩).trace
      = [Event.mkdir "screenshots", Event.log "Error", Event.closeBrowser] := by
    unfold capture_app_screenshots
    rw [withPW_trace]
    show (closeB (handleExc (execCmd (⟨some 0, vis⟩ : Env) (seqList capture_app_steps)
        (emit (Event.mkdir "screenshots") initState)))).trace = _
    rw [hex]
    rfl
  constructor
  · unfold shotsOf
    rw [h2]
    rfl
  · rw [h2]
    simp

/-! ## Execution past a skipped visibility block (capture_screenshots.py) -/

theorem capture_screenshots_main_events (env : Env) :
    ∀ e ∈ (capture_screenshots_main env).trace,
      e = Event.mkdir "screenshots"
        ∨ e ∈ cmdEvents (seqList capture_screenshots_steps)
        ∨ e = Event.closeBrowser := by
  intro e he
  obtain ⟨d, hd, _, hmem⟩ := capture_screenshots_main_trace env
  rw [hd] at he
  rcases List.mem_cons.mp he with he | he
  · exact Or.inl he
  · rcases hmem e he with h | h
    · exact Or.inr (Or.inl h)
    · exact Or.inr (Or.inr h)

/-- When the first-email visibility probe answers false and nothing raises,
the run of capture_screenshots.py consists of the intro events, the probe,
the events of the tail of the script, and the close: the whole
`first_email` block is skipped and the Email Send screenshot is still
taken. -/
theorem capture_screenshots_main_skip_decomp (env : Env) (hf : env.failAt = none)
    (h0 : env.vis.getD 0 false = false) :
    ∃ d1 d2,
      (capture_screenshots_main env).trace
        = ((([Event.mkdir "screenshots"] ++ d1) ++ [Event.probe "tbody tr"]) ++ d2)
            ++ [Event.closeBrowser]
      ∧ (∀ e ∈ d1, e ∈ cmdEvents (seqList cs_intro))
      ∧ (∀ e ∈ d2, e ∈ cmdEvents (seqList cs_after))
      ∧ Event.shot "screenshots/06_email_send.png" true
          ∈ (capture_screenshots_main env).trace := by
  obtain ⟨d1, hd1, _, hmem1⟩ :=
    execCmd_trace env (seqList cs_intro) (emit (Event.mkdir "screenshots") initState)
  have hs1r : (execCmd env (seqList cs_intro)
      (emit (Event.mkdir "screenshots") initState)).raised = false := by
    rw [execCmd_noFail env hf, emit_raised]
    rfl
  have hs1p : (execCmd env (seqList cs_intro)
      (emit (Event.mkdir "screenshots") initState)).probes = 0 := by
    rw [execCmd_probes_of_branchFree env (seqList cs_intro) (by decide)]
    rfl
  have hwhole : (capture_screenshots_main env).trace
      = (closeB (execCmd env (seqList cs_after)
          { execCmd env (seqList cs_intro) (emit (Event.mkdir "screenshots") initState) with
            probes := (execCmd env (seqList cs_intro)
              (emit (Event.mkdir "screenshots") initState)).probes + 1,
            trace := (execCmd env (seqList cs_intro)
              (emit (Event.mkdir "screenshots") initState)).trace
                ++ [Event.probe "tbody tr"] })).trace := by
    unfold capture_screenshots_main capture_screenshots
    rw [withPW_trace]
    show (closeB (execCmd env (seqList capture_screenshots_steps)
        (emit (Event.mkdir "screenshots") initState))).trace = _
    rw [show capture_screenshots_steps
        = cs_intro ++ ([Cmd.branch "tbody tr" (seqList cs_email_detail) Cmd.skip] ++ cs_after)
        from List.append_assoc _ _ _]
    rw [execCmd_seqList_append]
    rw [show seqList ([Cmd.branch "tbody tr" (seqList cs_email_detail) Cmd.skip] ++ cs_after)
        = Cmd.seq (Cmd.branch "tbody tr" (seqList cs_email_detail) Cmd.skip) (seqList cs_after)
        from rfl]
    rw [execCmd_seq]
    rw [execCmd_branch_false env "tbody tr" (seqList cs_email_detail) Cmd.skip
      (execCmd env (seqList cs_intro) (emit (Event.mkdir "screenshots") initState)) hs1r
      (by rw [hs1p]; exact h0)]
    rw [execCmd_skip]
  generalize hg : execCmd env (seqList cs_intro)
    (emit (Event.mkdir "screenshots") initState) = s1 at hd1 hs1r hwhole
  have hd1m : s1.trace = [Event.mkdir "screenshots"] ++ d1 := by
    rw [hd1]
    rfl
  have hs2r : ({ s1 with probes := s1.probes + 1, trace := s1.trace ++ [Event.probe "tbody tr"] } : RunState).raised = false := hs1r
  obtain ⟨d2, hd2, _, hmem2⟩ := execCmd_trace env (seqList cs_after)
    { s1 with probes := s1.probes + 1, trace := s1.trace ++ [Event.probe "tbody tr"] }
  have hafter : (execCmd env (seqList cs_after)
      { s1 with probes := s1.probes + 1, trace := s1.trace ++ [Event.probe "tbody tr"] }).raised = false := by
    rw [execCmd_noFail env hf]
    exact hs2r
  have h06 := shot_emitted env hf "screenshots/06_email_send.png" true cs_after
    { s1 with probes := s1.probes + 1, trace := s1.trace ++ [Event.probe "tbody tr"] }
    hs2r (by decide)
  refine ⟨d1, d2, ?_, hmem1, hmem2, ?_⟩
  · rw [hwhole, closeB_trace_of_ok _ hafter, hd2]
    show ((s1.trace ++ [Event.probe "tbody tr"]) ++ d2) ++ [Event.closeBrowser] = _
    rw [hd1m]
  · rw [hwhole, closeB_trace_of_ok _ hafter]
    exact List.mem_append_left _ h06

/-! ## Claims -/

/-- C1, counterexample: the claim says a fatal abort (in particular a
failure of the initial navigation) yields a non-zero exit code.  In
capture_app_screenshots.py the initial `page.goto` failure (fallible
operation 0) is caught by the blanket `except Exception`, so the run aborts
(no screenshot is produced, the error is printed) and the process still
exits with code 0. -/
theorem c1_counterexample :
    exitCode (capture_app_screenshots ⟨some 0, []⟩) = 0
      ∧ shotsOf (capture_app_screenshots ⟨some 0, []⟩) = []
      ∧ Event.log "Error" ∈ (capture_app_screenshots ⟨some 0, []⟩).trace := by
  refine ⟨?_, ?_, ?_⟩ <;> decide

/-- C1, amended: every run exits 0 on full completion (no injected
failure); capture_screenshots.py and take_screenshots.py exit non-zero when
the initial navigation fails, and that failure aborts the run immediately
(no screenshot is produced); capture_app_screenshots.py catches every
exception at run level, so it exits 0 even on a fatal abort, though the
abort still stops all remaining steps. -/
theorem c1_amended_exit_behavior :
    (∀ env : Env, exitCode (capture_app_screenshots env) = 0)
  ∧ (∀ env : Env, env.failAt = none →
      exitCode (capture_screenshots_main env) = 0
        ∧ exitCode (take_screenshots_run env) = 0
        ∧ exitCode (test_dashboard_run env) = 0)
  ∧ (∀ vis : List Bool,
      exitCode (capture_screenshots_main ⟨some 0, vis⟩) = 1
        ∧ shotsOf (capture_screenshots_main ⟨some 0, vis⟩) = []
        ∧ exitCode (take_screenshots_run ⟨some 0, vis⟩) = 1
        ∧ shotsOf (capture_app_screenshots ⟨some 0, vis⟩) = []) := by
  refine ⟨capture_app_screenshots_exit, ?_, ?_⟩
  · intro env hf
    exact ⟨capture_screenshots_main_exit_ok env hf, take_screenshots_run_exit_ok env hf,
      test_dashboard_run_exit_ok env hf⟩
  · intro vis
    exact ⟨(capture_screenshots_main_fail0 vis).1, (capture_screenshots_main_fail0 vis).2,
      take_screenshots_run_fail0 vis, (capture_app_screenshots_fail0 vis).1⟩

/-- Witness for C1 at concrete environments. -/
theorem c1_amended_exit_behavior_witness :
    exitCode (capture_app_screenshots ⟨some 0, []⟩) = 0
      ∧ (⟨none, [true]⟩ : Env).failAt = none
      ∧ exitCode (capture_screenshots_main ⟨none, [true]⟩) = 0
      ∧ exitCode (capture_screenshots_main ⟨some 0, [true]⟩) = 1 :=
  ⟨c1_amended_exit_behavior.1 ⟨some 0, []⟩, rfl,
    (c1_amended_exit_behavior.2.1 ⟨none, [true]⟩ rfl).1,
    (c1_amended_exit_behavior.2.2 [true]).1⟩

/-- C2: for every run of each of the four scripts, whatever failures and
visibility answers the environment injects, the browser session is closed
exactly once before the run returns: either by the explicit
`browser.close()` statement, or, when an exception skipped that statement,
by the playwright scope teardown. -/
theorem c2_session_closed_once (env : Env) :
    (capture_app_screenshots env).closeCount = 1
      ∧ (capture_screenshots_main env).closeCount = 1
      ∧ (take_screenshots_run env).closeCount = 1
      ∧ (test_dashboard_run env).closeCount = 1 :=
  ⟨capture_app_screenshots_closeCount env, capture_screenshots_main_closeCount env,
    take_screenshots_run_closeCount env, test_dashboard_run_closeCount env⟩

/-- Witness for C2 at a concrete environment with an injected failure. -/
theorem c2_session_closed_once_witness :
    (capture_app_screenshots ⟨some 3, [false]⟩).closeCount = 1
      ∧ (capture_screenshots_main ⟨some 3, [false]⟩).closeCount = 1
      ∧ (take_screenshots_run ⟨some 3, [false]⟩).closeCount = 1
      ∧ (test_dashboard_run ⟨some 3, [false]⟩).closeCount = 1 :=
  c2_session_closed_once ⟨some 3, [false]⟩

/-- C3, counterexample: the claim says a failing screenshot write is caught
locally and execution proceeds to the next step.  In
capture_app_screenshots.py, when writing 01_home.png fails (fallible
operation 2, after goto and the load wait), no screenshot at all is
produced — in particular not 02_email_receive.png, which the same run
without the injected failure does produce — because the exception is only
caught by the run-level handler, which ends the walkthrough. -/
theorem c3_counterexample :
    shotsOf (capture_app_screenshots ⟨some 2, []⟩) = []
      ∧ Event.log "Error" ∈ (capture_app_screenshots ⟨some 2, []⟩).trace
      ∧ Event.shot "screenshots/02_email_receive.png" true
          ∈ (capture_app_screenshots ⟨none, []⟩).trace := by
  refine ⟨?_, ?_, ?_⟩ <;> decide

/-- C3, amended: a screenshot write failure is not handled per step: it
aborts the remaining sequence, so the screenshots actually produced form a
prefix of the healthy run's screenshots.  In capture_app_screenshots.py the
exception is caught by the run-level handler (logged once, the session is
closed, exit code 0); in capture_screenshots.py it propagates: the explicit
`browser.close()` statement is skipped, the session is closed by the scope
teardown, and the process exits non-zero. -/
theorem c3_amended_screenshot_error_aborts :
    (∀ env : Env, shotsOf (capture_app_screenshots env)
        <+: shotsOf (capture_app_screenshots ⟨none, env.vis⟩))
  ∧ (∀ env : Env, exitCode (capture_app_screenshots env) = 0
        ∧ (capture_app_screenshots env).closeCount = 1)
  ∧ exitCode (capture_screenshots_main ⟨some 2, []⟩) = 1
  ∧ Event.closeBrowser ∉ (capture_screenshots_main ⟨some 2, []⟩).trace
  ∧ (capture_screenshots_main ⟨some 2, []⟩).closeCount = 1
  ∧ shotsOf (capture_screenshots_main ⟨some 2, []⟩) = [] := by
  refine ⟨capture_app_screenshots_shots_pre, ?_, by decide, by decide,
    capture_screenshots_main_closeCount _, by decide⟩
  intro env
  exact ⟨capture_app_screenshots_exit env, capture_app_screenshots_closeCount env⟩

/-- Witness for C3 at a concrete environment. -/
theorem c3_amended_screenshot_error_aborts_witness :
    shotsOf (capture_app_screenshots ⟨some 2, []⟩)
        <+: shotsOf (capture_app_screenshots ⟨none, []⟩)
      ∧ exitCode (capture_app_screenshots ⟨some 2, []⟩) = 0 :=
  ⟨c3_amended_screenshot_error_aborts.1 ⟨some 2, []⟩,
    (c3_amended_screenshot_error_aborts.2.1 ⟨some 2, []⟩).1⟩

/-- C4: in every run of each script, whatever step a fatal failure is
injected at, the screenshots actually produced form a prefix of the
screenshots of the same run without the failure — so no screenshot file is
produced for any step after the failing one — and the browser session is
closed (exactly once). -/
theorem c4_fatal_failure_truncates (env : Env) :
    (shotsOf (capture_app_screenshots env) <+: shotsOf (capture_app_screenshots ⟨none, env.vis⟩)
      ∧ (capture_app_screenshots env).closeCount = 1)
  ∧ (shotsOf (capture_screenshots_main env) <+: shotsOf (capture_screenshots_main ⟨none, env.vis⟩)
      ∧ (capture_screenshots_main env).closeCount = 1)
  ∧ (shotsOf (take_screenshots_run env) <+: shotsOf (take_screenshots_run ⟨none, env.vis⟩)
      ∧ (take_screenshots_run env).closeCount = 1)
  ∧ (shotsOf (test_dashboard_run env) <+: shotsOf (test_dashboard_run ⟨none, env.vis⟩)
      ∧ (test_dashboard_run env).closeCount = 1) :=
  ⟨⟨capture_app_screenshots_shots_pre env, capture_app_screenshots_closeCount env⟩,
    ⟨capture_screenshots_main_shots_pre env, capture_screenshots_main_closeCount env⟩,
    ⟨take_screenshots_run_shots_pre env, take_screenshots_run_closeCount env⟩,
    ⟨test_dashboard_run_shots_pre env, test_dashboard_run_closeCount env⟩⟩

/-- Witness for C4 with a failure injected at operation 6 (the second
screenshot write of capture_screenshots.py). -/
theorem c4_fatal_failure_truncates_witness :
    shotsOf (capture_screenshots_main ⟨some 6, [true]⟩)
        <+: shotsOf (capture_screenshots_main ⟨none, [true]⟩)
      ∧ (capture_screenshots_main ⟨some 6, [true]⟩).closeCount = 1 :=
  (c4_fatal_failure_truncates ⟨some 6, [true]⟩).2.1

/-- C5, counterexample: the claim says a failed visibility precondition is
recorded as a failed outcome with error "precondition not met".  Running
capture_screenshots.py with the first-email row invisible skips the block
and continues (the Email Send screenshot is taken), but the complete list
of prints of that run records no failure at all: the skip is silent. -/
theorem c5_counterexample :
    (capture_screenshots_main ⟨none, [false]⟩).trace.filter isLog
      = [Event.log "Captured: Home page", Event.log "Captured: Email Receive panel",
         Event.log "Captured: Email Send panel", Event.log "Captured: Quotation Create menu",
         Event.log "Captured: Quotation Create form",
         Event.log "Captured: Quotation Create form (filled)",
         Event.log "Captured: Quotation View panel",
         Event.log "All screenshots captured successfully!",
         Event.log "Screenshots saved to: screenshots"]
      ∧ Event.shot "screenshots/03_email_detail.png" true
          ∉ (capture_screenshots_main ⟨none, [false]⟩).trace
      ∧ Event.shot "screenshots/06_email_send.png" true
          ∈ (capture_screenshots_main ⟨none, [false]⟩).trace := by
  refine ⟨?_, ?_, ?_⟩ <;> decide

/-- C5, amended: in capture_screenshots.py, when the first-email visibility
precondition is not met (and nothing raises), the step's action and
screenshot are skipped — neither the modal wait nor 03_email_detail.png
happens — execution continues non-fatally with the following steps (the
Email Send screenshot is still taken), and no failure outcome is recorded:
no print of the run ever carries the message "precondition not met". -/
theorem c5_amended_silent_skip (env : Env) (hf : env.failAt = none)
    (h0 : env.vis.getD 0 false = false) :
    Event.shot "screenshots/03_email_detail.png" true ∉ (capture_screenshots_main env).trace
  ∧ Event.waitSel "#emailModal" ∉ (capture_screenshots_main env).trace
  ∧ Event.shot "screenshots/06_email_send.png" true ∈ (capture_screenshots_main env).trace
  ∧ ∀ e ∈ (capture_screenshots_main env).trace, logMsg e ≠ some "precondition not met" := by
  obtain ⟨d1, d2, htr, hm1, hm2, h06⟩ := capture_screenshots_main_skip_decomp env hf h0
  have hnot : ∀ x : Event,
      x ∈ (capture_screenshots_main env).trace →
      x ∉ cmdEvents (seqList cs_intro) → x ∉ cmdEvents (seqList cs_after) →
      x ≠ Event.mkdir "screenshots" → x ≠ Event.probe "tbody tr" →
      x ≠ Event.closeBrowser → False := by
    intro x hin hn1 hn2 hne1 hne2 hne3
    rw [htr] at hin
    rcases List.mem_append.mp hin with hin | hin
    · rcases List.mem_append.mp hin with hin | hin
      · rcases List.mem_append.mp hin with hin | hin
        · rcases List.mem_append.mp hin with hin | hin
          · exact hne1 (by simpa using hin)
          · exact hn1 (hm1 x hin)
        · exact hne2 (by simpa using hin)
      · exact hn2 (hm2 x hin)
    · exact hne3 (by simpa using hin)
  refine ⟨?_, ?_, h06, ?_⟩
  · intro hin
    exact hnot _ hin (by decide) (by decide) (by decide) (by decide) (by decide)
  · intro hin
    exact hnot _ hin (by decide) (by decide) (by decide) (by decide) (by decide)
  · intro e he
    rcases capture_screenshots_main_events env e he with h | h | h
    · rw [h]; decide
    · have hstat : ∀ x ∈ cmdEvents (seqList capture_screenshots_steps),
          logMsg x ≠ some "precondition not met" := by decide
      exact hstat e h
    · rw [h]; decide

/-- Witness for C5 at the concrete environment where the first probe
answers false and nothing raises. -/
theorem c5_amended_silent_skip_witness :
    (⟨none, [false]⟩ : Env).failAt = none
      ∧ (⟨none, [false]⟩ : Env).vis.getD 0 false = false
      ∧ Event.shot "screenshots/03_email_detail.png" true
          ∉ (capture_screenshots_main ⟨none, [false]⟩).trace
      ∧ Event.shot "screenshots/06_email_send.png" true
          ∈ (capture_screenshots_main ⟨none, [false]⟩).trace :=
  ⟨rfl, rfl, (c5_amended_silent_skip ⟨none, [false]⟩ rfl rfl).1,
    (c5_amended_silent_skip ⟨none, [false]⟩ rfl rfl).2.2.1⟩

/-- C6: in every run of capture_screenshots.py and take_screenshots.py
(whatever the environment does), every screenshot is a full-page capture,
the produced files are strictly ordered by their two-digit ordinal prefix,
and statically the i-th declared screenshot of each script is written to
`screenshots/<NN>_<label>.png` where NN is the 1-based position i zero-padded
to two digits. -/
theorem c6_ordered_fullpage_names (env : Env) :
    (List.Pairwise shotLt (shotsOf (capture_screenshots_main env))
      ∧ ∀ e ∈ shotsOf (capture_screenshots_main env), shotFull e = true)
  ∧ (List.Pairwise shotLt (shotsOf (take_screenshots_run env))
      ∧ ∀ e ∈ shotsOf (take_screenshots_run env), shotFull e = true)
  ∧ (staticShots capture_screenshots_steps).map shotOrd = [1,2,3,4,5,6,7,8,9,10,11,12]
  ∧ (staticShots take_screenshots_steps).map shotOrd = [1,2,3,4,5,6]
  ∧ (∀ e ∈ staticShots capture_screenshots_steps,
      ordPrefixOk e = true ∧ inDirPng "screenshots" e = true)
  ∧ (∀ e ∈ staticShots take_screenshots_steps,
      ordPrefixOk e = true ∧ inDirPng "screenshots" e = true) := by
  refine ⟨⟨?_, ?_⟩, ⟨?_, ?_⟩, by decide, by decide, by decide, by decide⟩
  · exact List.Pairwise.sublist (capture_screenshots_main_shots_sub env) (by decide)
  · intro e he
    have hstat : ∀ x ∈ staticShots capture_screenshots_steps, shotFull x = true := by decide
    exact hstat e ((capture_screenshots_main_shots_sub env).subset he)
  · exact List.Pairwise.sublist (take_screenshots_run_shots_sub env) (by decide)
  · intro e he
    have hstat : ∀ x ∈ staticShots take_screenshots_steps, shotFull x = true := by decide
    exact hstat e ((take_screenshots_run_shots_sub env).subset he)

/-- Witness for C6 at a concrete environment. -/
theorem c6_ordered_fullpage_names_witness :
    List.Pairwise shotLt (shotsOf (capture_screenshots_main ⟨none, [true, true, true]⟩))
      ∧ List.Pairwise shotLt (shotsOf (take_screenshots_run ⟨none, [true, true, true]⟩)) :=
  ⟨(c6_ordered_fullpage_names ⟨none, [true, true, true]⟩).1.1,
    (c6_ordered_fullpage_names ⟨none, [true, true, true]⟩).2.1.1⟩

/-- C7, counterexample: the claim says every run creates the output
directory before writing any screenshot.  A run of test_dashboard.py writes
its first screenshot although its trace contains no directory creation at
all: the script has no `os.makedirs` call. -/
theorem c7_counterexample :
    Event.shot "d:/project/erp_nlr/screenshots/01_initial_load.png" true
        ∈ (test_dashboard_run ⟨none, [true, true]⟩).trace
      ∧ ∀ e ∈ (test_dashboard_run ⟨none, [true, true]⟩).trace, isMkdir e = false := by
  refine ⟨?_, ?_⟩ <;> decide

/-- C7, amended: capture_app_screenshots.py, capture_screenshots.py (run as
a script) and take_screenshots.py create the screenshots directory (if
absent) as their very first effect, before any screenshot; test_dashboard.py
never creates its output directory, which therefore must already exist. -/
theorem c7_amended_output_dir (env : Env) :
    (capture_app_screenshots env).trace.head? = some (Event.mkdir "screenshots")
  ∧ (capture_screenshots_main env).trace.head? = some (Event.mkdir "screenshots")
  ∧ (take_screenshots_run env).trace.head? = some (Event.mkdir "screenshots")
  ∧ ∀ e ∈ (test_dashboard_run env).trace, isMkdir e = false := by
  refine ⟨?_, ?_, ?_, ?_⟩
  · obtain ⟨d, hd, _, _⟩ := capture_app_screenshots_trace env
    rw [hd]
    rfl
  · obtain ⟨d, hd, _, _⟩ := capture_screenshots_main_trace env
    rw [hd]
    rfl
  · obtain ⟨d, hd, _, _⟩ := take_screenshots_run_trace env
    rw [hd]
    rfl
  · intro e he
    obtain ⟨d, hd, _, hmem⟩ := test_dashboard_run_trace env
    rw [hd] at he
    rcases hmem e he with h | h
    · have hstat : ∀ x ∈ cmdEvents (seqList test_dashboard_steps), isMkdir x = false := by
        decide
      exact hstat e h
    · rw [h]
      rfl

/-- Witness for C7 at a concrete environment. -/
theorem c7_amended_output_dir_witness :
    (capture_screenshots_main ⟨some 4, [true]⟩).trace.head?
        = some (Event.mkdir "screenshots")
      ∧ ∀ e ∈ (test_dashboard_run ⟨some 4, [true]⟩).trace, isMkdir e = false :=
  ⟨(c7_amended_output_dir ⟨some 4, [true]⟩).2.1,
    (c7_amended_output_dir ⟨some 4, [true]⟩).2.2.2⟩

/-- C8: in every run of capture_screenshots.py, take_screenshots.py and
capture_app_screenshots.py, every screenshot event in the trace is written
immediately after a completed settle sleep, which itself follows the step's
action: capture happens only after the action and the settle delay. -/
theorem c8_screenshot_after_settle (env : Env) :
    settledTrace (capture_screenshots_main env).trace = true
  ∧ settledTrace (take_screenshots_run env).trace = true
  ∧ settledTrace (capture_app_screenshots env).trace = true :=
  ⟨capture_screenshots_main_settled env, take_screenshots_run_settled env,
    capture_app_screenshots_settled env⟩

/-- Witness for C8 at a concrete environment. -/
theorem c8_screenshot_after_settle_witness :
    settledTrace (capture_screenshots_main ⟨none, [true, false]⟩).trace = true :=
  (c8_screenshot_after_settle ⟨none, [true, false]⟩).1

/-- C9: the list of produced screenshot file names is a deterministic
function of the environment (the application's visibility answers and the
failure point): two runs over equal environments produce identical name
lists, and every produced name is drawn, in order, from the fixed static
name list of the script — the names are string literals, independent of
anything else. -/
theorem c9_deterministic_file_names :
    (∀ env1 env2 : Env, env1.failAt = env2.failAt → env1.vis = env2.vis →
        shotPathsOf (capture_screenshots_main env1) = shotPathsOf (capture_screenshots_main env2)
      ∧ shotPathsOf (take_screenshots_run env1) = shotPathsOf (take_screenshots_run env2))
  ∧ (∀ env : Env,
        (shotPathsOf (capture_screenshots_main env)).Sublist
          ((staticShots capture_screenshots_steps).map shotPath)
      ∧ (shotPathsOf (take_screenshots_run env)).Sublist
          ((staticShots take_screenshots_steps).map shotPath)) := by
  constructor
  · intro e1 e2 h1 h2
    obtain ⟨f1, v1⟩ := e1
    obtain ⟨f2, v2⟩ := e2
    have hf : f1 = f2 := h1
    have hv : v1 = v2 := h2
    subst hf
    subst hv
    exact ⟨rfl, rfl⟩
  · intro env
    exact ⟨List.Sublist.map shotPath (capture_screenshots_main_shots_sub env),
      List.Sublist.map shotPath (take_screenshots_run_shots_sub env)⟩

/-- Witness for C9 at concrete equal environments. -/
theorem c9_deterministic_file_names_witness :
    shotPathsOf (capture_screenshots_main ⟨none, [true, true, true]⟩)
        = shotPathsOf (capture_screenshots_main ⟨none, [true, true, true]⟩)
      ∧ (shotPathsOf (capture_screenshots_main ⟨none, [true, true, true]⟩)).Sublist
          ((staticShots capture_screenshots_steps).map shotPath) :=
  ⟨(c9_deterministic_file_names.1 ⟨none, [true, true, true]⟩ ⟨none, [true, true, true]⟩
      rfl rfl).1,
    (c9_deterministic_file_names.2 ⟨none, [true, true, true]⟩).1⟩

/-- C10: in every run of each of the four scripts, the produced screenshot
paths are pairwise distinct, so no screenshot ever overwrites an earlier one
from the same run. -/
theorem c10_no_overwrites (env : Env) :
    (shotPathsOf (capture_app_screenshots env)).Nodup
  ∧ (shotPathsOf (capture_screenshots_main env)).Nodup
  ∧ (shotPathsOf (take_screenshots_run env)).Nodup
  ∧ (shotPathsOf (test_dashboard_run env)).Nodup := by
  refine ⟨?_, ?_, ?_, ?_⟩
  · exact List.Nodup.sublist
      (List.Sublist.map shotPath (capture_app_screenshots_shots_sub env)) (by decide)
  · exact List.Nodup.sublist
      (List.Sublist.map shotPath (capture_screenshots_main_shots_sub env)) (by decide)
  · exact List.Nodup.sublist
      (List.Sublist.map shotPath (take_screenshots_run_shots_sub env)) (by decide)
  · exact List.Nodup.sublist
      (List.Sublist.map shotPath (test_dashboard_run_shots_sub env)) (by decide)

/-- Witness for C10 at a concrete environment. -/
theorem c10_no_overwrites_witness :
    (shotPathsOf (capture_app_screenshots ⟨none, [true, true, true, true]⟩)).Nodup :=
  (c10_no_overwrites ⟨none, [true, true, true, true]⟩).1
